import Mathlib

/-!
Verification of the `AskService` request-lifecycle layer of the
analytics-ai-service repository (`src/web/v1/services/ask.py`) and of the
intent-classification post-processing
(`src/pipelines/generation/intent_classification.py`).

The Python code is shallowly embedded: the per-request job record
(`AskResultResponse`), the TTL job-status cache, and the `ask` background flow
are modelled as pure Lean functions.  External LLM/retrieval pipelines are
modelled by an `Oracle` providing each pipeline's outcome (`Except PyErr _`,
where `.error` models the pipeline raising).  Since the service runs on a
single-threaded asyncio event loop, a concurrent `stop_ask` can only be
observed by the background flow at its `await` points; the model therefore
takes a `stops : Nat → Bool` schedule saying at which await points a
user-initiated stop lands.  Within one run, all reads and writes of
`self._ask_results` use the run's own `query_id`, so the flow model keeps just
that one record (`St.rec`) plus an event log; the full keyed container is
modelled separately (`TTLStore`) for `get_ask_result` / `stop_ask`.
-/

namespace AskSpec

/-- The eight status literals of `_AskResultResponse.status`
(src/web/v1/services/ask.py lines 89-99). -/
inductive AskStatus
  | understanding
  | searching
  | planning
  | generating
  | correcting
  | finished
  | failed
  | stopped
  deriving DecidableEq, Repr

/-- `AskError.code` literals (ask.py line 79). -/
inductive ErrCode
  | NO_RELEVANT_DATA
  | NO_RELEVANT_SQL
  | OTHERS
  deriving DecidableEq, Repr

/-- `AskError` (ask.py lines 76-80). -/
structure AskError where
  code : ErrCode
  message : String
  deriving DecidableEq, Repr

/-- `AskResult.type` literals (ask.py line 72). -/
inductive ResultType
  | llm
  | view
  deriving DecidableEq, Repr

/-- `AskResult` (ask.py lines 68-73). -/
structure AskResult where
  sql : String
  type : ResultType := .llm
  viewId : Option String := none
  deriving DecidableEq, Repr

/-- `type` literals of `_AskResultResponse` (ask.py line 103). -/
inductive RespType
  | GENERAL
  | TEXT_TO_SQL
  deriving DecidableEq, Repr

/-- `general_type` literals of `_AskResultResponse` (ask.py lines 110-112). -/
inductive GeneralType
  | MISLEADING_QUERY
  | DATA_ASSISTANCE
  | USER_GUIDE
  deriving DecidableEq, Repr

/-- The job record `_AskResultResponse` / `AskResultResponse`
(ask.py lines 89-121).  Defaults are the pydantic field defaults. -/
structure AskResultResponse where
  status : AskStatus
  rephrased_question : Option String := none
  intent_reasoning : Option String := none
  sql_generation_reasoning : Option String := none
  type : Option RespType := none
  retrieved_tables : Option (List String) := none
  response : Option (List AskResult) := none
  invalid_sql : Option String := none
  error : Option AskError := none
  trace_id : Option String := none
  is_followup : Bool := false
  general_type : Option GeneralType := none
  deriving DecidableEq, Repr

/-- `AskHistory` (ask.py lines 23-27). -/
structure AskHistory where
  sql : String
  question : String
  deriving DecidableEq, Repr

/-! ## The TTL job-status container

`self._ask_results` is a `cachetools.TTLCache(maxsize=maxsize, ttl=ttl)`
(ask.py lines 163-165).  An entry written at time `t` is readable while
`now < t + ttl` and gone afterwards.  `maxsize`/LRU eviction is carried but
not needed by any claim. -/

/-- One cache slot: key, expiry instant (insertion time + ttl), value. -/
structure TTLEntry where
  key : String
  expires : Nat
  value : AskResultResponse
  deriving DecidableEq, Repr

/-- The TTL cache container state. -/
structure TTLStore where
  ttl : Nat := 120
  maxsize : Nat := 1000000
  entries : List TTLEntry := []
  deriving DecidableEq, Repr

/-- `cache.get(key)` at instant `now`: a live (unexpired) entry or `None`. -/
def TTLStore.get (c : TTLStore) (k : String) (now : Nat) : Option AskResultResponse :=
  match c.entries.find? (fun en => en.key == k) with
  | some en => if now < en.expires then some en.value else none
  | none => none

/-- `cache[key] = value` at instant `now`: replaces any entry for `k`,
expiring at `now + ttl`. -/
def TTLStore.set (c : TTLStore) (k : String) (v : AskResultResponse) (now : Nat) : TTLStore :=
  { c with entries := ⟨k, now + c.ttl, v⟩ :: c.entries.filter (fun en => en.key != k) }

/-- The fresh record written by `stop_ask` (ask.py lines 1341-1343):
`AskResultResponse(status="stopped")`, every other field at its default. -/
def stoppedRecord : AskResultResponse := { status := .stopped }

/-- `AskService.stop_ask` (ask.py lines 1335-1345): unconditionally assigns a
fresh stopped record to the request's query id. -/
def stop_ask (c : TTLStore) (query_id : String) (now : Nat) : TTLStore :=
  c.set query_id stoppedRecord now

/-- The "not found" response of `get_ask_result` (ask.py lines 1359-1366). -/
def notFoundResponse (query_id : String) : AskResultResponse :=
  { status := .failed
    type := some .TEXT_TO_SQL
    error := some ⟨.OTHERS, query_id ++ " is not found"⟩ }

/-- `AskService.get_ask_result` (ask.py lines 1347-1379): total — a missing or
expired record yields the failed/OTHERS "not found" response, never a raise. -/
def get_ask_result (c : TTLStore) (query_id : String) (now : Nat) : AskResultResponse :=
  match c.get query_id now with
  | none => notFoundResponse query_id
  | some r => r

/-! ## Intent-classification post-processing (C8)

`post_process` in src/pipelines/generation/intent_classification.py lines
286-302.  The LLM reply is `orjson.loads`-parsed and the keys
`rephrased_question` / `results` / `reasoning` are read; any failure
(unparseable JSON, non-object value, missing key) lands in the `except` arm.
A minimal JSON value type models the parsed reply; `none` models a
`orjson.loads` failure. -/

/-- Minimal JSON value for the parsed LLM reply. -/
inductive JVal
  | str (s : String)
  | obj (fields : List (String × JVal))
  | other

/-- Dictionary lookup `j["k"]`; `none` models the raising cases
(missing key, or subscripting a non-object). -/
def jLookup (j : JVal) (k : String) : Option JVal :=
  match j with
  | .obj fields => (fields.find? (fun kv => kv.1 == k)).map (fun kv => kv.2)
  | _ => none

/-- Result dict of intent-classification `post_process`. -/
structure ICPost where
  rephrased_question : JVal
  intent : JVal
  reasoning : JVal
  db_schemas : List String

/-- The fallback default of `post_process` (intent_classification.py
lines 296-302). -/
def icFallback (construct_db_schemas : List String) : ICPost :=
  { rephrased_question := .str ""
    intent := .str "TEXT_TO_SQL"
    reasoning := .str ""
    db_schemas := construct_db_schemas }

/-- `post_process` (intent_classification.py lines 286-302).  `loaded` is the
`orjson.loads` result of the first reply (`none` = parse raised). -/
def icPostProcess (loaded : Option JVal) (construct_db_schemas : List String) : ICPost :=
  match loaded with
  | none => icFallback construct_db_schemas
  | some j =>
    match jLookup j "rephrased_question", jLookup j "results", jLookup j "reasoning" with
    | some rq, some res, some r =>
      { rephrased_question := rq
        intent := res
        reasoning := r
        db_schemas := construct_db_schemas }
    | _, _, _ => icFallback construct_db_schemas

/-- Parsing/validation failure of the LLM JSON output: the reply did not parse,
or some required key is unreadable. -/
def icParseFails (loaded : Option JVal) : Bool :=
  match loaded with
  | none => true
  | some j =>
    (jLookup j "rephrased_question").isNone || (jLookup j "results").isNone ||
      (jLookup j "reasoning").isNone

/-! ## The background ask flow

Embedding of `AskService.ask` (ask.py lines 1050-1276) and every helper it
invokes.  Pipeline calls are resolved by an `Oracle`; `.error` models the
pipeline raising an exception (caught wherever the Python `try/except` does).
-/

/-- A raised Python exception, carrying `str(e)`. -/
structure PyErr where
  msg : String
  deriving DecidableEq, Repr

/-- A document of the `historical_question` pipeline's `formatted_output`.
Modelled from the spec: the historical-question pipeline is not under src/;
per the spec's cache-hit contract each cached document carries the cached SQL
`statement` and an optional `viewId` (ask.py lines 239-245 reads exactly these
two keys). -/
structure HistDoc where
  statement : String
  viewId : Option String := none
  deriving DecidableEq, Repr

/-- The `post_process` payload seen by `_classify_intent` (ask.py lines
338-342); on pipeline success all four keys are present (the pipeline's own
fallback guarantees this, intent_classification.py lines 286-302). -/
structure IntentPost where
  intent : String
  rephrased_question : String
  reasoning : String
  db_schemas : List String := []
  deriving DecidableEq, Repr

/-- One retrieval document of `db_schema_retrieval`'s
`construct_retrieval_results.retrieval_results`.  Modelled from the spec: the
retrieval pipeline is not under src/; its documents carry `table_name` and
`table_ddl` (ask.py lines 719-720, and the shapes in
tests/pytest/services/test_ask_service_extracted_methods.py). -/
structure SchemaDoc where
  table_name : String
  table_ddl : String
  deriving DecidableEq, Repr

/-- `construct_retrieval_results` payload of `db_schema_retrieval`
(ask.py lines 697-698, 603-605). -/
structure DbRetrieval where
  retrieval_results : List SchemaDoc
  has_calculated_field : Bool := false
  has_metric : Bool := false
  has_json_field : Bool := false
  deriving DecidableEq, Repr

/-- `valid_generation_result` payload: ask.py reads only `.get("sql")`
(lines 825, 1209); `none` models a missing key. -/
structure GenResult where
  sql : Option String
  deriving DecidableEq, Repr

/-- `invalid_generation_result` payload: ask.py reads `["sql"]`,
`.get("error")` and `.get("type")` (lines 791-794). -/
structure InvalidResult where
  sql : Option String := none
  error : Option String := none
  type : Option String := none
  deriving DecidableEq, Repr

/-- `post_process` payload of the SQL generation/correction pipelines
(`SQLGenPostProcessor`): both keys always present, each possibly `None`/empty
(falsy), modelled as `none`. -/
structure GenPost where
  valid_generation_result : Option GenResult := none
  invalid_generation_result : Option InvalidResult := none
  deriving DecidableEq, Repr

/-- Outcomes of every external pipeline the ask flow awaits, by pipeline name;
`sql_correction` is indexed by the attempt ordinal within the run. -/
structure Oracle where
  historical_question : Except PyErr (List HistDoc)
  sql_pairs_retrieval : Except PyErr (List String)
  instructions_retrieval : Except PyErr (List String)
  intent_classification : Except PyErr IntentPost
  db_schema_retrieval : Except PyErr DbRetrieval
  sql_generation_reasoning : Except PyErr String
  followup_sql_generation_reasoning : Except PyErr String
  sql_functions_retrieval : Except PyErr (List String)
  sql_generation : Except PyErr GenPost
  followup_sql_generation : Except PyErr GenPost
  sql_correction : Nat → Except PyErr GenPost

/-- `AskRequest` (ask.py lines 30-47) plus the `BaseRequest` fields the flow
reads (`query_id`, `project_id`, `request_from`, configurations language).
`histories` is `Optional[List[AskHistory]]`: an explicit `null` is accepted by
pydantic and reaches the flow as `none`. -/
structure AskRequest where
  query_id : String
  query : String := ""
  project_id : String := ""
  histories : Option (List AskHistory) := some []
  ignore_sql_generation_reasoning : Bool := false
  enable_column_pruning : Bool := false
  use_dry_plan : Bool := false
  allow_dry_plan_fallback : Bool := true
  custom_instruction : Option String := none
  request_from : String := "api"
  language : String := "en"
  deriving DecidableEq, Repr

/-- The `AskService.__init__` configuration (ask.py lines 148-172). -/
structure ServiceCfg where
  allow_intent_classification : Bool := true
  allow_sql_generation_reasoning : Bool := true
  allow_sql_functions_retrieval : Bool := true
  enable_column_pruning : Bool := false
  max_sql_correction_retries : Nat := 3
  max_histories : Nat := 5
  deriving DecidableEq, Repr

/-- Everything fixed for one run of the background flow: pipeline outcomes,
the stop schedule over await points, service config, request, trace id. -/
structure Env where
  o : Oracle
  stops : Nat → Bool
  cfg : ServiceCfg
  req : AskRequest
  trace_id : Option String := none

/-- Events observable on the run's job record: a status write by the flow, a
concurrent `stop_ask` write landing at an await point, or a pipeline dispatch
(with the `histories=` argument it was given, if any). -/
inductive Ev
  | write (r : AskResultResponse)
  | stopWrite
  | call (name : String) (histories : Option (List AskHistory))
  deriving DecidableEq, Repr

/-- Run state: the job record under the run's query id, the event log, and the
number of await points passed so far. -/
structure St where
  record : Option AskResultResponse := none
  events : List Ev := []
  awaitN : Nat := 0
  deriving DecidableEq, Repr

/-- `_update_status` (ask.py lines 183-200): replaces the record wholesale. -/
def updateStatus (r : AskResultResponse) (st : St) : St :=
  { st with record := some r, events := st.events ++ [.write r] }

/-- Record a pipeline dispatch (no suspension by itself). -/
def recordCall (name : String) (histories : Option (List AskHistory)) (st : St) : St :=
  { st with events := st.events ++ [.call name histories] }

/-- Pass an await point: if the stop schedule fires here, a concurrent
`stop_ask` replaces the record with the fresh stopped record. -/
def awaitPoint (e : Env) (st : St) : St :=
  if e.stops st.awaitN then
    { st with
        awaitN := st.awaitN + 1
        record := some stoppedRecord
        events := st.events ++ [.stopWrite] }
  else { st with awaitN := st.awaitN + 1 }

/-- Dispatch a pipeline and suspend on it. -/
def runPipeline (e : Env) (name : String) (histories : Option (List AskHistory))
    (st : St) : St :=
  awaitPoint e (recordCall name histories st)

/-- `_is_stopped` (ask.py lines 178-181) on the run's own record. -/
def isStopped (st : St) : Bool :=
  match st.record with
  | some r => match r.status with | .stopped => true | _ => false
  | none => false

/-- Python truthiness `if v:` for an optional string (`None` and `""` falsy). -/
def truthyStr (v : Option String) : Bool :=
  match v with
  | some s => s != ""
  | none => false

/-- `s or d` for `Optional[str] s` and non-empty literal `d`. -/
def strOrDefault (v : Option String) (d : String) : String :=
  match v with
  | some s => if s = "" then d else s
  | none => d

/-- `.get(key, default)` result combination: keep `a` if the key was present. -/
def optOr (a b : Option String) : Option String :=
  match a with
  | some v => some v
  | none => b

/-- Result converted from one historical document (ask.py lines 239-245):
`type="view" if result.get("viewId") else "llm"`. -/
def toAskResult (d : HistDoc) : AskResult :=
  { sql := d.statement
    type := if truthyStr d.viewId then .view else .llm
    viewId := d.viewId }

/-- Outcome of `_check_historical_question` (ask.py lines 202-262), collapsing
its 4-tuple: a hit carries the top-1 api results (with reasoning `""` and
empty samples/instructions); a miss carries the gathered samples and
instructions (empty on any caught exception). -/
inductive CacheCheck
  | hit (api_results : List AskResult)
  | miss (sql_samples instructions : List String)
  deriving DecidableEq, Repr

/-- The status-"understanding" write at step 1 of `ask` (lines 1088-1093). -/
def understandingWrite (e : Env) (fu : Bool) : AskResultResponse :=
  { status := .understanding, trace_id := e.trace_id, is_followup := fu }

/-- The status-"searching" write of `_retrieve_database_schemas`
(lines 680-688). -/
def searchingWrite (e : Env) (rq ir : Option String) (fu : Bool) :
    AskResultResponse :=
  { status := .searching, trace_id := e.trace_id, is_followup := fu
    type := some .TEXT_TO_SQL, rephrased_question := rq, intent_reasoning := ir }

/-- The status-"planning" writes of `_generate_sql_reasoning` (lines 373-382
with no reasoning yet, lines 418-428 with it). -/
def planningWrite (e : Env) (table_names : List String) (rq ir : Option String)
    (srea : Option String) (fu : Bool) : AskResultResponse :=
  { status := .planning, type := some .TEXT_TO_SQL, rephrased_question := rq
    intent_reasoning := ir, retrieved_tables := some table_names
    sql_generation_reasoning := srea, trace_id := e.trace_id, is_followup := fu }

/-- The status-"generating" write of `_generate_sql` (lines 575-593). -/
def generatingWrite (e : Env) (table_names : List String) (srea : Option String)
    (rq ir : Option String) (fu : Bool) : AskResultResponse :=
  { status := .generating, type := some .TEXT_TO_SQL, rephrased_question := rq
    intent_reasoning := ir, retrieved_tables := some table_names
    sql_generation_reasoning := srea, trace_id := e.trace_id, is_followup := fu }

/-- The finished/GENERAL write of `_handle_general_query`. -/
def finishedGeneralWrite (e : Env) (rq ir : Option String) (fu : Bool)
    (gt : GeneralType) : AskResultResponse :=
  { status := .finished, type := some .GENERAL, rephrased_question := rq
    intent_reasoning := ir, trace_id := e.trace_id, is_followup := fu
    general_type := some gt }

/-- The fall-through understanding/TEXT_TO_SQL write of
`_handle_general_query` (lines 531-539). -/
def understandingT2SWrite (e : Env) (rq ir : Option String) (fu : Bool) :
    AskResultResponse :=
  { status := .understanding, type := some .TEXT_TO_SQL
    rephrased_question := rq, intent_reasoning := ir
    trace_id := e.trace_id, is_followup := fu }

/-- The NO_RELEVANT_DATA failed write of `_retrieve_database_schemas`
(lines 703-715). -/
def failedNoDataWrite (e : Env) (rq ir : Option String) (fu : Bool) :
    AskResultResponse :=
  { status := .failed, trace_id := e.trace_id, is_followup := fu
    type := some .TEXT_TO_SQL
    error := some ⟨.NO_RELEVANT_DATA, "No relevant data"⟩
    rephrased_question := rq, intent_reasoning := ir }

/-- The finished write of `_format_final_response` / `_format_cached_response`. -/
def finishedWrite (e : Env) (api : Option (List AskResult)) (rq ir : Option String)
    (table_names : List String) (srea : Option String) (fu : Bool) :
    AskResultResponse :=
  { status := .finished, trace_id := e.trace_id, is_followup := fu
    type := some .TEXT_TO_SQL, response := api
    rephrased_question := rq, intent_reasoning := ir
    retrieved_tables := some table_names
    sql_generation_reasoning := srea }

/-- The NO_RELEVANT_SQL failed write of `_format_final_response`
(lines 910-925). -/
def failedNoSqlWrite (e : Env) (emsg isql : Option String)
    (rq ir : Option String) (table_names : List String) (srea : Option String)
    (fu : Bool) : AskResultResponse :=
  { status := .failed, trace_id := e.trace_id, is_followup := fu
    type := some .TEXT_TO_SQL
    error := some ⟨.NO_RELEVANT_SQL, strOrDefault emsg "No relevant SQL"⟩
    rephrased_question := rq, intent_reasoning := ir
    retrieved_tables := some table_names
    sql_generation_reasoning := srea, invalid_sql := isql }

/-- The failed/OTHERS write of the `except` arm of `ask` (lines 1256-1266). -/
def failedOthersWrite (e : Env) (fu : Bool) (msg : String) : AskResultResponse :=
  { status := .failed, trace_id := e.trace_id, is_followup := fu
    type := some .TEXT_TO_SQL, error := some ⟨.OTHERS, msg⟩ }

/-- State effect of the cache-miss gather in `_check_historical_question`:
the historical await, then one suspension dispatching both retrievals. -/
def gatherSt (e : Env) (st : St) : St :=
  awaitPoint e (recordCall "instructions_retrieval" none
    (recordCall "sql_pairs_retrieval" none
      (runPipeline e "historical_question" none st)))

/-- `_check_historical_question` (ask.py lines 202-262); the
`asyncio.gather` of `_retrieve_sql_samples_and_instructions` (lines 264-303)
is one suspension dispatching both retrievals. -/
def checkHistoricalQuestion (e : Env) (st : St) : CacheCheck × St :=
  match e.o.historical_question with
  | .error _ => (.miss [] [], runPipeline e "historical_question" none st)
  | .ok docs =>
    match docs.take 1 with
    | [] =>
      match e.o.sql_pairs_retrieval, e.o.instructions_retrieval with
      | .ok sp, .ok ins =>
        (.miss sp ins, gatherSt e st)
      | .ok _, .error _ => (.miss [] [], gatherSt e st)
      | .error _, .ok _ => (.miss [] [], gatherSt e st)
      | .error _, .error _ => (.miss [] [], gatherSt e st)
    | d :: _ => (.hit [toAskResult d], runPipeline e "historical_question" none st)

/-- `_classify_intent` (ask.py lines 305-348): `some` bundles the four
post-process fields; `none` is the caught-exception tuple of `None`s. -/
def classifyIntent (e : Env) (histories : List AskHistory) (st : St) :
    Option IntentPost × St :=
  match e.o.intent_classification with
  | .ok p => (some p, runPipeline e "intent_classification" (some histories) st)
  | .error _ => (none, runPipeline e "intent_classification" (some histories) st)

/-- `_generate_sql_reasoning` (ask.py lines 350-434).  The reasoning pipelines
are not under src/; modelled from the spec: their `post_process` is the
reasoning text (a string), so the `isinstance(..., str)` branch applies and
the caught-exception `{}` return is `none`. -/
def generateSqlReasoning (e : Env) (histories : List AskHistory)
    (table_names : List String) (rq ir : Option String) (fu : Bool) (st : St) :
    Option String × St :=
  if histories.isEmpty then
    match e.o.sql_generation_reasoning with
    | .error _ =>
      (none, runPipeline e "sql_generation_reasoning" none
        (updateStatus (planningWrite e table_names rq ir none fu) st))
    | .ok s =>
      (some s, updateStatus (planningWrite e table_names rq ir (some s) fu)
        (runPipeline e "sql_generation_reasoning" none
          (updateStatus (planningWrite e table_names rq ir none fu) st)))
  else
    match e.o.followup_sql_generation_reasoning with
    | .error _ =>
      (none, runPipeline e "followup_sql_generation_reasoning" (some histories)
        (updateStatus (planningWrite e table_names rq ir none fu) st))
    | .ok s =>
      (some s, updateStatus (planningWrite e table_names rq ir (some s) fu)
        (runPipeline e "followup_sql_generation_reasoning" (some histories)
          (updateStatus (planningWrite e table_names rq ir none fu) st)))

/-- Metadata dict of the returned results (`results["metadata"]`). -/
structure Metadata where
  type : String
  error_type : Option String := none
  error_message : Option String := none
  request_from : Option String := none
  deriving DecidableEq, Repr

/-- The dict returned by `ask` and its formatters: `ask_result` is `{}`
(`none`) or the list of results. -/
structure AskReturn where
  ask_result : Option (List AskResult) := none
  metadata : Metadata
  deriving DecidableEq, Repr

/-- `_handle_general_query` (ask.py lines 436-544): dispatches the assistance
pipeline as a fire-and-forget task and records the finished GENERAL status;
`none` is the TEXT_TO_SQL/unknown fall-through. -/
def handleGeneralQuery (e : Env) (intent : Option String)
    (histories : List AskHistory) (rq ir : Option String) (fu : Bool)
    (st : St) : Option AskReturn × St :=
  if intent = some "MISLEADING_QUERY" then
    (some { ask_result := none, metadata := { type := "MISLEADING_QUERY" } },
     updateStatus (finishedGeneralWrite e rq ir fu .MISLEADING_QUERY)
       (recordCall "misleading_assistance" (some histories) st))
  else if intent = some "GENERAL" then
    (some { ask_result := none, metadata := { type := "GENERAL" } },
     updateStatus (finishedGeneralWrite e rq ir fu .DATA_ASSISTANCE)
       (recordCall "data_assistance" (some histories) st))
  else if intent = some "USER_GUIDE" then
    (some { ask_result := none, metadata := { type := "GENERAL" } },
     updateStatus (finishedGeneralWrite e rq ir fu .USER_GUIDE)
       (recordCall "user_guide_assistance" none st))
  else
    (none, updateStatus (understandingT2SWrite e rq ir fu) st)

/-- State effect of the searching write plus the `db_schema_retrieval`
dispatch in `_retrieve_database_schemas`. -/
def schemaStep (e : Env) (histories : List AskHistory) (rq ir : Option String)
    (fu : Bool) (st : St) : St :=
  runPipeline e "db_schema_retrieval" (some histories)
    (updateStatus (searchingWrite e rq ir fu) st)

/-- `_retrieve_database_schemas` (ask.py lines 647-729): `.error` is the
`ValueError("NO_RELEVANT_DATA")` raised to the caller, both for an empty
document list (after the `_is_stopped`-guarded failed write) and for a raising
pipeline (re-raised as ValueError with no status write). -/
def retrieveDatabaseSchemas (e : Env) (histories : List AskHistory)
    (rq ir : Option String) (fu : Bool) (st : St) :
    Except Unit (List String × List String × DbRetrieval) × St :=
  match e.o.db_schema_retrieval with
  | .error _ => (.error (), schemaStep e histories rq ir fu st)
  | .ok ret =>
    if ret.retrieval_results.isEmpty then
      (.error (),
       if isStopped (schemaStep e histories rq ir fu st) then
         schemaStep e histories rq ir fu st
       else
         updateStatus (failedNoDataWrite e rq ir fu)
           (schemaStep e histories rq ir fu st))
    else
      (.ok (ret.retrieval_results.map (fun d => d.table_name),
            ret.retrieval_results.map (fun d => d.table_ddl), ret),
       schemaStep e histories rq ir fu st)

/-- Second half of `_generate_sql` (ask.py lines 607-641): dispatch the
follow-up or first-time generation pipeline. -/
def generateSqlDispatch (e : Env) (histories : List AskHistory) (st : St) :
    Option GenPost × St :=
  if histories.isEmpty then
    match e.o.sql_generation with
    | .error _ => (none, runPipeline e "sql_generation" none st)
    | .ok p => (some p, runPipeline e "sql_generation" none st)
  else
    match e.o.followup_sql_generation with
    | .error _ => (none, runPipeline e "followup_sql_generation" (some histories) st)
    | .ok p => (some p, runPipeline e "followup_sql_generation" (some histories) st)

/-- `_generate_sql` (ask.py lines 546-645): generating status write, optional
SQL-function retrieval, then generation; `none` is the caught-exception `{}`
return (whose `["post_process"]` subscript later raises in `ask`). -/
def generateSql (e : Env) (histories : List AskHistory)
    (table_names : List String) (srea : Option String)
    (rq ir : Option String) (fu : Bool) (st : St) : Option GenPost × St :=
  if e.cfg.allow_sql_functions_retrieval then
    match e.o.sql_functions_retrieval with
    | .error _ =>
      (none, runPipeline e "sql_functions_retrieval" none
        (updateStatus (generatingWrite e table_names srea rq ir fu) st))
    | .ok _ =>
      generateSqlDispatch e histories
        (runPipeline e "sql_functions_retrieval" none
          (updateStatus (generatingWrite e table_names srea rq ir fu) st))
  else
    generateSqlDispatch e histories
      (updateStatus (generatingWrite e table_names srea rq ir fu) st)

/-- Outcome of the `while` loop of `_correct_sql`: normal exit (with the
api results, running `invalid_sql`/`error_message`, and the last failed
result), or an exception reaching the method's `except` arm. -/
inductive LoopOut
  | done (api : Option (List AskResult)) (invalid_sql error_message : Option String)
      (lastFailed : Option InvalidResult)
  | exn (invalid_sql : Option String) (msg : String)
  deriving DecidableEq, Repr

/-- The `while current_retries < max_retries` loop of `_correct_sql`
(ask.py lines 790-833), with `fuel = max_retries - current_retries` and
`attempt` counting correction-pipeline invocations.  A `none` failed result
models `None["sql"]` (TypeError), a failed result without `sql` models the
`["sql"]` KeyError, and a valid result without `sql` models the
`AskResult(sql=None)` ValidationError — each reaching the `except` arm. -/
def correctingWrite (e : Env) (table_names : List String) (rq ir : Option String)
    (fu : Bool) : AskResultResponse :=
  { status := .correcting, type := some .TEXT_TO_SQL
    rephrased_question := rq, intent_reasoning := ir
    retrieved_tables := some table_names
    sql_generation_reasoning := none
    trace_id := e.trace_id, is_followup := fu }

/-- One iteration's state effect in `_correct_sql`: the correcting status
write followed by the `sql_correction` dispatch (ask.py lines 799-818). -/
def corrStep (e : Env) (table_names : List String) (rq ir : Option String)
    (fu : Bool) (st : St) : St :=
  runPipeline e "sql_correction" none
    (updateStatus (correctingWrite e table_names rq ir fu) st)

def correctLoop (e : Env) (table_names : List String) (rq ir : Option String)
    (fu : Bool) :
    Nat → Nat → Option InvalidResult → Option String → Option String → St →
    LoopOut × St
  | 0, _, failed, isql, emsg, st => (.done none isql emsg failed, st)
  | fuel + 1, attempt, failed, isql, _emsg, st =>
    match failed with
    | none => (.exn isql "TypeError", st)
    | some f =>
      match f.sql with
      | none => (.exn isql "KeyError", st)
      | some fsql =>
        if f.type = some "TIME_OUT" then
          (.done none (some fsql) f.error (some f), st)
        else
          match e.o.sql_correction attempt with
          | .error ex => (.exn (some fsql) ex.msg, corrStep e table_names rq ir fu st)
          | .ok p =>
            match p.valid_generation_result with
            | some v =>
              match v.sql with
              | none =>
                (.exn (some fsql) "ValidationError", corrStep e table_names rq ir fu st)
              | some vs =>
                (.done (some [{ sql := vs, type := .llm }]) (some fsql) f.error (some f),
                 corrStep e table_names rq ir fu st)
            | none =>
              correctLoop e table_names rq ir fu fuel (attempt + 1)
                p.invalid_generation_result (some fsql) f.error
                (corrStep e table_names rq ir fu st)

/-- `_correct_sql` (ask.py lines 761-844): run the loop, then the post-loop
`if api_results is None and failed_result:` adjustment; the `except` arm
returns `(None, invalid_sql, str(e))`. -/
def correctSql (e : Env) (invalid_generation_result : InvalidResult)
    (table_names : List String) (max_retries : Nat) (rq ir : Option String)
    (fu : Bool) (st : St) :
    (Option (List AskResult) × Option String × Option String) × St :=
  match correctLoop e table_names rq ir fu max_retries 0
      (some invalid_generation_result) none none st with
  | (.exn isql m, st) => ((none, isql, some m), st)
  | (.done api isql emsg lastFailed, st) =>
    match api with
    | some _ => ((api, isql, emsg), st)
    | none =>
      match lastFailed with
      | some f => ((none, optOr f.sql isql, optOr f.error emsg), st)
      | none => ((none, isql, emsg), st)

/-- Python truthiness of the `api_results` value (`None` and `[]` falsy). -/
def apiTruthy (api : Option (List AskResult)) : Bool :=
  match api with
  | some l => !l.isEmpty
  | none => false

/-- `_format_final_response` (ask.py lines 846-941), reached through the
`_format_response` wrapper (lines 1015-1048): `_is_stopped`-guarded terminal
write, then the results dict. -/
def formatFinalResponse (e : Env) (api : Option (List AskResult))
    (emsg isql : Option String) (rq ir : Option String)
    (table_names : List String) (srea : Option String) (fu : Bool) (st : St) :
    AskReturn × St :=
  if apiTruthy api then
    ({ ask_result := api
       metadata := { type := "TEXT_TO_SQL", error_type := some ""
                     error_message := some ""
                     request_from := some e.req.request_from } },
     if isStopped st then st
     else updateStatus (finishedWrite e api rq ir table_names srea fu) st)
  else
    ({ ask_result := none
       metadata := { type := "TEXT_TO_SQL", error_type := some "NO_RELEVANT_SQL"
                     error_message := some (strOrDefault emsg "")
                     request_from := some e.req.request_from } },
     if isStopped st then st
     else updateStatus (failedNoSqlWrite e emsg isql rq ir table_names srea fu) st)

/-- `_format_cached_response` (ask.py lines 943-1013). -/
def formatCachedResponse (e : Env) (api : List AskResult)
    (rq ir : Option String) (table_names : List String) (srea : Option String)
    (fu : Bool) (st : St) : AskReturn × St :=
  ({ ask_result := some api
     metadata := { type := "TEXT_TO_SQL", error_type := some ""
                   error_message := some ""
                   request_from := some e.req.request_from } },
   if isStopped st then st
   else updateStatus (finishedWrite e (some api) rq ir table_names srea fu) st)

/-- `intent_result[0] in ["GENERAL", "MISLEADING_QUERY", "USER_GUIDE"]`. -/
def intentInThree (intent : Option String) : Bool :=
  intent == some "GENERAL" || intent == some "MISLEADING_QUERY" ||
    intent == some "USER_GUIDE"

/-- `_handle_cache_hit` (ask.py lines 1278-1333): optional intent
classification (possibly diverting to the assistance path), else the cached
response with `table_names or []` and reasoning `""`. -/
def handleCacheHit (e : Env) (ctxHistories : List AskHistory) (fu : Bool)
    (api : List AskResult) (st : St) : Option AskReturn × St :=
  if e.cfg.allow_intent_classification then
    match classifyIntent e ctxHistories st with
    | (ip, st) =>
      if intentInThree (ip.map (fun p => p.intent)) then
        handleGeneralQuery e (ip.map (fun p => p.intent)) ctxHistories
          (ip.map (fun p => p.rephrased_question)) (ip.map (fun p => p.reasoning))
          fu st
      else
        match formatCachedResponse e api (ip.map (fun p => p.rephrased_question))
            (ip.map (fun p => p.reasoning)) [] (some "") fu st with
        | (r, st) => (some r, st)
  else
    match formatCachedResponse e api none none [] (some "") fu st with
    | (r, st) => (some r, st)

/-- Steps 6-8 of the `try` body of `ask` (reasoning, generation, correction,
final formatting), entered with the retrieved table names. -/
def askTail (e : Env) (ctxHistories : List AskHistory) (fu : Bool)
    (table_names : List String) (rq ir : Option String)
    (srea : Option String) (st : St) : Except PyErr (Option AskReturn) × St :=
  if isStopped st then
    match formatFinalResponse e (some []) none none rq ir table_names
        srea fu st with
    | (r, st) => (.ok (some r), st)
  else
    match generateSql e ctxHistories table_names srea rq ir fu st with
    | (none, st) => (.error ⟨"KeyError"⟩, st)
    | (some p, st) =>
      match p.valid_generation_result with
      | some v =>
        match v.sql with
        | none => (.error ⟨"ValidationError"⟩, st)
        | some vs =>
          match formatFinalResponse e (some [{ sql := vs, type := .llm }])
              none none rq ir table_names srea fu st with
          | (r, st) => (.ok (some r), st)
      | none =>
        match p.invalid_generation_result with
        | some f =>
          match correctSql e f table_names
              e.cfg.max_sql_correction_retries rq ir fu st with
          | ((api, isql, emsg), st) =>
            match formatFinalResponse e api emsg isql rq ir table_names
                srea fu st with
            | (r, st) => (.ok (some r), st)
        | none =>
          match formatFinalResponse e (some []) none none rq ir
              table_names srea fu st with
          | (r, st) => (.ok (some r), st)

/-- Steps 3-8 of the `try` body of `ask` (the cache-miss continuation):
intent classification, general-query branch, schema retrieval, then
`askTail`. -/
def askMiss (e : Env) (ctxHistories : List AskHistory) (fu : Bool) (st : St) :
    Except PyErr (Option AskReturn) × St :=
  match classifyIntent e ctxHistories st with
  | (ip, st) =>
    if intentInThree (ip.map (fun p => p.intent)) then
      match handleGeneralQuery e (ip.map (fun p => p.intent)) ctxHistories
          (ip.map (fun p => p.rephrased_question)) (ip.map (fun p => p.reasoning))
          fu st with
      | (r, st) => (.ok r, st)
    else
      match retrieveDatabaseSchemas e ctxHistories
          (ip.map (fun p => p.rephrased_question)) (ip.map (fun p => p.reasoning))
          fu st with
      | (.error _, st) =>
        (.ok (some { ask_result := none
                     metadata := { type := "TEXT_TO_SQL"
                                   error_type := some "NO_RELEVANT_DATA"
                                   error_message := some ""
                                   request_from := some e.req.request_from } }),
         st)
      | (.ok (table_names, _table_ddls, _ret), st) =>
        if e.cfg.allow_sql_generation_reasoning &&
            !e.req.ignore_sql_generation_reasoning then
          match generateSqlReasoning e ctxHistories table_names
              (ip.map (fun p => p.rephrased_question))
              (ip.map (fun p => p.reasoning)) fu st with
          | (srea, st) =>
            askTail e ctxHistories fu table_names
              (ip.map (fun p => p.rephrased_question))
              (ip.map (fun p => p.reasoning)) srea st
        else
          askTail e ctxHistories fu table_names
            (ip.map (fun p => p.rephrased_question))
            (ip.map (fun p => p.reasoning)) none st

/-- The `try` body of `ask` (ask.py lines 1085-1251), steps 1-8.  `.error`
models an exception propagating to the method's `except` arm; the only raise
points inside the body are the `["post_process"]` subscript of an empty
generation result and the `AskResult(sql=None)` construction. -/
def askBody (e : Env) (ctxHistories : List AskHistory) (fu : Bool) (st : St) :
    Except PyErr (Option AskReturn) × St :=
  match checkHistoricalQuestion e
      (if isStopped st then st
       else updateStatus (understandingWrite e fu) st) with
  | (.hit api, st) =>
    match handleCacheHit e ctxHistories fu api st with
    | (r, st) => (.ok r, st)
  | (.miss _ _, st) => askMiss e ctxHistories fu st

/-- The histories actually used by the flow:
`ask_request.histories[: self._max_histories][::-1]` (ask.py line 1075). -/
def ctxHistoriesOf (hs : List AskHistory) (max_histories : Nat) : List AskHistory :=
  (hs.take max_histories).reverse

/-- `AskService.ask` (ask.py lines 1050-1276): the context-construction
prologue (before the `try`) raises a TypeError when `histories` is `None`;
otherwise the body runs and any escaping exception is converted by the
`except` arm to an unconditional failed/OTHERS write plus an OTHERS-metadata
return. -/
def ask (e : Env) (st : St) : Except PyErr (Option AskReturn) × St :=
  match e.req.histories with
  | none => (.error ⟨"TypeError"⟩, st)
  | some hs =>
    match askBody e (ctxHistoriesOf hs e.cfg.max_histories)
        (!(ctxHistoriesOf hs e.cfg.max_histories).isEmpty) st with
    | (.ok r, st) => (.ok r, st)
    | (.error ex, st) =>
      (.ok (some { ask_result := none
                   metadata := { type := "TEXT_TO_SQL", error_type := some "OTHERS"
                                 error_message := some ex.msg
                                 request_from := some e.req.request_from } }),
       updateStatus
         (failedOthersWrite e (!(ctxHistoriesOf hs e.cfg.max_histories).isEmpty)
           ex.msg) st)

/-! ## Observations on runs -/

/-- The status writes performed by the flow itself (not `stop_ask`). -/
def writesOf (events : List Ev) : List AskResultResponse :=
  events.filterMap (fun ev => match ev with | .write r => some r | _ => none)

/-- The names of the pipelines dispatched during a run. -/
def callNames (events : List Ev) : List String :=
  events.filterMap (fun ev => match ev with | .call n _ => some n | _ => none)

/-- The `histories=` arguments of the pipeline dispatches that pass one. -/
def callHistories (events : List Ev) : List (List AskHistory) :=
  events.filterMap (fun ev => match ev with | .call _ h => h | _ => none)

/-- Replays an event log over the record's current status and reports whether
some flow write flipped a stopped record back to a non-stopped status. -/
def flipsStopped (cur : Option AskStatus) : List Ev → Bool
  | [] => false
  | .stopWrite :: rest => flipsStopped (some .stopped) rest
  | .write r :: rest =>
    (cur == some .stopped && r.status != .stopped) || flipsStopped (some r.status) rest
  | .call _ _ :: rest => flipsStopped cur rest

/-- Stage order of the straight-line status progression; the three terminal
statuses share the top rank. -/
def stageRank : AskStatus → Nat
  | .understanding => 0
  | .searching => 1
  | .planning => 2
  | .generating => 3
  | .correcting => 4
  | .finished => 5
  | .failed => 5
  | .stopped => 5

/-- In-flight (non-terminal) statuses. -/
def isInflight : AskStatus → Bool
  | .understanding | .searching | .planning | .generating | .correcting => true
  | .finished | .failed | .stopped => false

/-- Terminal statuses. -/
def isTerminal : AskStatus → Bool
  | .finished | .failed | .stopped => true
  | _ => false

/-- Number of `sql_correction` dispatches in an event log. -/
def corrCalls (events : List Ev) : Nat :=
  (callNames events).count "sql_correction"

/-- The assistance pipeline `_handle_general_query` dispatches for each
non-TEXT_TO_SQL intent label (ask.py lines 460-516). -/
def assistancePipeline : String → String
  | "MISLEADING_QUERY" => "misleading_assistance"
  | "GENERAL" => "data_assistance"
  | "USER_GUIDE" => "user_guide_assistance"
  | _ => ""

/-- The `general_type` recorded for each non-TEXT_TO_SQL intent label. -/
def generalTypeFor : String → Option GeneralType
  | "MISLEADING_QUERY" => some .MISLEADING_QUERY
  | "GENERAL" => some .DATA_ASSISTANCE
  | "USER_GUIDE" => some .USER_GUIDE
  | _ => none

/-- The intent label produced by a run's intent classification, if the
pipeline succeeds. -/
def classifiedIntent (o : Oracle) : Option String :=
  match o.intent_classification with
  | .ok p => some p.intent
  | .error _ => none

/-- The top historical document, if the `historical_question` pipeline
succeeds with a non-empty list (the cache-hit condition). -/
def cacheHitDoc (o : Oracle) : Option HistDoc :=
  match o.historical_question with
  | .ok (d :: _) => some d
  | _ => none

/-- Every pipeline dispatch in the log that passes a `histories=` argument
passes exactly `ctx`. -/
def HistOk (ctx : List AskHistory) (l : List Ev) : Prop :=
  ∀ h ∈ callHistories l, h = ctx

/-- Write-order relation for C7: in a run's write sequence, every write that
precedes another one is in-flight and of a stage no later than it. -/
def writeOrder (a b : AskResultResponse) : Prop :=
  stageRank a.status ≤ stageRank b.status ∧ isInflight a.status = true

/-- Every write in the list is in-flight with stage rank at most `k`. -/
def InflightLe (k : Nat) (W : List AskResultResponse) : Prop :=
  ∀ w ∈ W, isInflight w.status = true ∧ stageRank w.status ≤ k

/-- The eight status literals, as a list. -/
def allStatuses : List AskStatus :=
  [.understanding, .searching, .planning, .generating, .correcting,
   .finished, .failed, .stopped]

/-- A pipeline oracle in which every call succeeds, the cache misses, intent
is TEXT_TO_SQL, one schema document is retrieved and the first generation is
valid — the happy path, used to build concrete runs. -/
def sampleOracle : Oracle :=
  { historical_question := .ok []
    sql_pairs_retrieval := .ok []
    instructions_retrieval := .ok []
    intent_classification :=
      .ok { intent := "TEXT_TO_SQL", rephrased_question := "rq", reasoning := "why" }
    db_schema_retrieval :=
      .ok { retrieval_results := [{ table_name := "users", table_ddl := "ddl" }] }
    sql_generation_reasoning := .ok "plan"
    followup_sql_generation_reasoning := .ok "fplan"
    sql_functions_retrieval := .ok []
    sql_generation := .ok { valid_generation_result := some { sql := some "SELECT 1" } }
    followup_sql_generation :=
      .ok { valid_generation_result := some { sql := some "SELECT 2" } }
    sql_correction := fun _ => .ok {} }

/-- Happy-path environment: default config, no stop, empty history. -/
def sampleEnv : Env :=
  { o := sampleOracle, stops := fun _ => false, cfg := {}, req := { query_id := "q" } }

/-- Environment in which a stop lands while the run awaits the
`historical_question` pipeline (await point 0). -/
def stopEnv : Env := { sampleEnv with stops := fun n => n == 0 }

/-- Environment with a historical cache hit and a GENERAL intent label. -/
def hitGeneralEnv : Env :=
  { sampleEnv with
      o := { sampleOracle with
               historical_question := .ok [{ statement := "SELECT 9", viewId := some "v1" }]
               intent_classification :=
                 .ok { intent := "GENERAL", rephrased_question := "", reasoning := "" } } }

/-- Environment whose request carries an explicit `histories: null`. -/
def noneHistEnv : Env := { sampleEnv with req := { query_id := "q", histories := none } }

/-- Environment in which the `sql_generation` pipeline raises, so
`_generate_sql` returns `{}` and the `["post_process"]` subscript in `ask`
raises a KeyError inside the `try` body. -/
def kerrEnv : Env :=
  { sampleEnv with o := { sampleOracle with sql_generation := .error ⟨"gen boom"⟩ } }

/-- Environment in which the `db_schema_retrieval` pipeline raises. -/
def dbErrEnv : Env :=
  { sampleEnv with o := { sampleOracle with db_schema_retrieval := .error ⟨"conn lost"⟩ } }

/-! ## Theorems -/

section EventLemmas

@[simp] lemma writesOf_nil : writesOf [] = [] := rfl

@[simp] lemma callNames_nil : callNames [] = [] := rfl

@[simp] lemma callHistories_nil : callHistories [] = [] := rfl

@[simp] lemma writesOf_append (l1 l2 : List Ev) :
    writesOf (l1 ++ l2) = writesOf l1 ++ writesOf l2 := by
  simp [writesOf, List.filterMap_append]

@[simp] lemma callNames_append (l1 l2 : List Ev) :
    callNames (l1 ++ l2) = callNames l1 ++ callNames l2 := by
  simp [callNames, List.filterMap_append]

@[simp] lemma callHistories_append (l1 l2 : List Ev) :
    callHistories (l1 ++ l2) = callHistories l1 ++ callHistories l2 := by
  simp [callHistories, List.filterMap_append]

@[simp] lemma writesOf_write (r : AskResultResponse) :
    writesOf [.write r] = [r] := rfl

@[simp] lemma writesOf_stopWrite : writesOf [.stopWrite] = [] := rfl

@[simp] lemma writesOf_call (n : String) (h : Option (List AskHistory)) :
    writesOf [.call n h] = [] := rfl

@[simp] lemma callNames_write (r : AskResultResponse) :
    callNames [.write r] = [] := rfl

@[simp] lemma callNames_stopWrite : callNames [.stopWrite] = [] := rfl

@[simp] lemma callNames_call (n : String) (h : Option (List AskHistory)) :
    callNames [.call n h] = [n] := rfl

@[simp] lemma callHistories_write (r : AskResultResponse) :
    callHistories [.write r] = [] := rfl

@[simp] lemma callHistories_stopWrite : callHistories [.stopWrite] = [] := rfl

@[simp] lemma callHistories_call (n : String) (h : Option (List AskHistory)) :
    callHistories [.call n h] = h.toList := by
  cases h <;> rfl

@[simp] lemma writesOf_cons_write (r : AskResultResponse) (l : List Ev) :
    writesOf (.write r :: l) = r :: writesOf l := rfl

@[simp] lemma writesOf_cons_stop (l : List Ev) :
    writesOf (.stopWrite :: l) = writesOf l := rfl

@[simp] lemma writesOf_cons_call (n : String) (h : Option (List AskHistory))
    (l : List Ev) : writesOf (.call n h :: l) = writesOf l := rfl

@[simp] lemma callNames_cons_write (r : AskResultResponse) (l : List Ev) :
    callNames (.write r :: l) = callNames l := rfl

@[simp] lemma callNames_cons_stop (l : List Ev) :
    callNames (.stopWrite :: l) = callNames l := rfl

@[simp] lemma callNames_cons_call (n : String) (h : Option (List AskHistory))
    (l : List Ev) : callNames (.call n h :: l) = n :: callNames l := rfl

@[simp] lemma callHistories_cons_write (r : AskResultResponse) (l : List Ev) :
    callHistories (.write r :: l) = callHistories l := rfl

@[simp] lemma callHistories_cons_stop (l : List Ev) :
    callHistories (.stopWrite :: l) = callHistories l := rfl

@[simp] lemma callHistories_cons_call_none (n : String) (l : List Ev) :
    callHistories (.call n none :: l) = callHistories l := rfl

@[simp] lemma callHistories_cons_call_some (n : String) (h : List AskHistory)
    (l : List Ev) : callHistories (.call n (some h) :: l) = h :: callHistories l := rfl

@[simp] lemma updateStatus_events' (r : AskResultResponse) (st : St) :
    (updateStatus r st).events = st.events ++ [.write r] := rfl

@[simp] lemma recordCall_events' (n : String) (h : Option (List AskHistory)) (st : St) :
    (recordCall n h st).events = st.events ++ [.call n h] := rfl

@[simp] lemma awaitPoint_events' (e : Env) (st : St) :
    (awaitPoint e st).events =
      st.events ++ (if e.stops st.awaitN then [.stopWrite] else []) := by
  unfold awaitPoint
  split <;> simp

@[simp] lemma runPipeline_events (e : Env) (n : String)
    (h : Option (List AskHistory)) (st : St) :
    (runPipeline e n h st).events =
      st.events ++ [.call n h] ++
        (if e.stops st.awaitN then [.stopWrite] else []) := by
  unfold runPipeline
  rw [awaitPoint_events']
  simp [recordCall]

@[simp] lemma updateStatus_record (r : AskResultResponse) (st : St) :
    (updateStatus r st).record = some r := rfl

@[simp] lemma recordCall_record (n : String) (h : Option (List AskHistory)) (st : St) :
    (recordCall n h st).record = st.record := rfl

@[simp] lemma awaitPoint_record (e : Env) (st : St) :
    (awaitPoint e st).record =
      if e.stops st.awaitN then some stoppedRecord else st.record := by
  unfold awaitPoint
  split <;> simp

@[simp] lemma runPipeline_record (e : Env) (n : String)
    (h : Option (List AskHistory)) (st : St) :
    (runPipeline e n h st).record =
      if e.stops st.awaitN then some stoppedRecord else st.record := by
  unfold runPipeline
  rw [awaitPoint_record]
  rfl

@[simp] lemma events_ite (c : Prop) [Decidable c] (s1 s2 : St) :
    (if c then s1 else s2).events = if c then s1.events else s2.events := by
  split <;> rfl

@[simp] lemma record_ite (c : Prop) [Decidable c] (s1 s2 : St) :
    (if c then s1 else s2).record = if c then s1.record else s2.record := by
  split <;> rfl

@[simp] lemma callNames_ite (c : Prop) [Decidable c] (l1 l2 : List Ev) :
    callNames (if c then l1 else l2) = if c then callNames l1 else callNames l2 := by
  split <;> rfl

@[simp] lemma writesOf_ite (c : Prop) [Decidable c] (l1 l2 : List Ev) :
    writesOf (if c then l1 else l2) = if c then writesOf l1 else writesOf l2 := by
  split <;> rfl

@[simp] lemma callHistories_ite (c : Prop) [Decidable c] (l1 l2 : List Ev) :
    callHistories (if c then l1 else l2) =
      if c then callHistories l1 else callHistories l2 := by
  split <;> rfl

@[simp] lemma writesOf_if_stop (c : Prop) [Decidable c] :
    writesOf (if c then [Ev.stopWrite] else []) = [] := by
  split <;> rfl

@[simp] lemma callNames_if_stop (c : Prop) [Decidable c] :
    callNames (if c then [Ev.stopWrite] else []) = [] := by
  split <;> rfl

@[simp] lemma callHistories_if_stop (c : Prop) [Decidable c] :
    callHistories (if c then [Ev.stopWrite] else []) = [] := by
  split <;> rfl

end EventLemmas

section BranchLemmas

lemma chq_hit (e : Env) (st : St) (d : HistDoc) (ds : List HistDoc)
    (h : e.o.historical_question = .ok (d :: ds)) :
    checkHistoricalQuestion e st =
      (.hit [toAskResult d], runPipeline e "historical_question" none st) := by
  simp [checkHistoricalQuestion, h]

lemma chq_miss_err (e : Env) (st : St) (ex : PyErr)
    (h : e.o.historical_question = .error ex) :
    checkHistoricalQuestion e st =
      (.miss [] [], runPipeline e "historical_question" none st) := by
  simp [checkHistoricalQuestion, h]

lemma chq_miss_empty (e : Env) (st : St)
    (h : e.o.historical_question = .ok []) :
    ∃ sp ins, checkHistoricalQuestion e st = (.miss sp ins, gatherSt e st) := by
  unfold checkHistoricalQuestion gatherSt
  rw [h]
  rcases e.o.sql_pairs_retrieval with ex | sp <;>
    rcases e.o.instructions_retrieval with ex2 | ins
  · exact ⟨[], [], rfl⟩
  · exact ⟨[], [], rfl⟩
  · exact ⟨[], [], rfl⟩
  · exact ⟨sp, ins, rfl⟩

lemma classifyIntent_ok (e : Env) (ctx : List AskHistory) (st : St) (p : IntentPost)
    (h : e.o.intent_classification = .ok p) :
    classifyIntent e ctx st =
      (some p, runPipeline e "intent_classification" (some ctx) st) := by
  simp [classifyIntent, h]

lemma classifyIntent_err (e : Env) (ctx : List AskHistory) (st : St) (ex : PyErr)
    (h : e.o.intent_classification = .error ex) :
    classifyIntent e ctx st =
      (none, runPipeline e "intent_classification" (some ctx) st) := by
  simp [classifyIntent, h]

lemma hgq_misleading (e : Env) (ctx : List AskHistory) (rq ir : Option String)
    (fu : Bool) (st : St) :
    handleGeneralQuery e (some "MISLEADING_QUERY") ctx rq ir fu st =
      (some { ask_result := none, metadata := { type := "MISLEADING_QUERY" } },
       updateStatus (finishedGeneralWrite e rq ir fu .MISLEADING_QUERY)
         (recordCall "misleading_assistance" (some ctx) st)) := by
  simp [handleGeneralQuery]

lemma hgq_general (e : Env) (ctx : List AskHistory) (rq ir : Option String)
    (fu : Bool) (st : St) :
    handleGeneralQuery e (some "GENERAL") ctx rq ir fu st =
      (some { ask_result := none, metadata := { type := "GENERAL" } },
       updateStatus (finishedGeneralWrite e rq ir fu .DATA_ASSISTANCE)
         (recordCall "data_assistance" (some ctx) st)) := by
  simp [handleGeneralQuery]

lemma hgq_user_guide (e : Env) (ctx : List AskHistory) (rq ir : Option String)
    (fu : Bool) (st : St) :
    handleGeneralQuery e (some "USER_GUIDE") ctx rq ir fu st =
      (some { ask_result := none, metadata := { type := "GENERAL" } },
       updateStatus (finishedGeneralWrite e rq ir fu .USER_GUIDE)
         (recordCall "user_guide_assistance" none st)) := by
  simp [handleGeneralQuery]

lemma sql_generation_ne_assistance (i : String) :
    "sql_generation" ≠ assistancePipeline i := by
  unfold assistancePipeline
  split <;> simp

lemma followup_sql_generation_ne_assistance (i : String) :
    "followup_sql_generation" ≠ assistancePipeline i := by
  unfold assistancePipeline
  split <;> simp

/-- For any of the three non-TEXT_TO_SQL intents, `_handle_general_query`
dispatches the matching assistance pipeline and appends the finished/GENERAL
write. -/
lemma hgq_intent3_facts (e : Env) (ctx : List AskHistory) (rq ir : Option String)
    (fu : Bool) (stPre : St) (i : String)
    (hin3 : intentInThree (some i) = true) :
    ∃ (gt : GeneralType) (ha : Option (List AskHistory)) (r : AskReturn),
      generalTypeFor i = some gt ∧
      handleGeneralQuery e (some i) ctx rq ir fu stPre =
        (some r, updateStatus (finishedGeneralWrite e rq ir fu gt)
          (recordCall (assistancePipeline i) ha stPre)) := by
  have h3 : (i = "GENERAL" ∨ i = "MISLEADING_QUERY") ∨ i = "USER_GUIDE" := by
    simpa [intentInThree] using hin3
  rcases h3 with (h | h) | h <;> subst h
  · exact ⟨.DATA_ASSISTANCE, some ctx, _, rfl, hgq_general e ctx rq ir fu stPre⟩
  · exact ⟨.MISLEADING_QUERY, some ctx, _, rfl, hgq_misleading e ctx rq ir fu stPre⟩
  · exact ⟨.USER_GUIDE, none, _, rfl, hgq_user_guide e ctx rq ir fu stPre⟩

end BranchLemmas

/-- C5: for every query id whose job record has been evicted from the TTL
cache (its configured TTL has elapsed since the write) or was never created,
`get_ask_result` returns the status-"failed" response with error code OTHERS
and the "`<query id>` is not found" message; being a total function it raises
nothing. -/
theorem C5_get_ask_result_not_found :
    (∀ (c : TTLStore) (k : String) (v : AskResultResponse) (t now : Nat),
      t + c.ttl ≤ now →
        get_ask_result (c.set k v t) k now =
          { status := .failed, type := some .TEXT_TO_SQL
            error := some ⟨.OTHERS, k ++ " is not found"⟩ }) ∧
    (∀ (c : TTLStore) (k : String) (now : Nat),
      c.entries.all (fun en => en.key != k) →
        get_ask_result c k now =
          { status := .failed, type := some .TEXT_TO_SQL
            error := some ⟨.OTHERS, k ++ " is not found"⟩ }) := by
  constructor
  · intro c k v t now h
    simp only [get_ask_result, TTLStore.get, TTLStore.set, List.find?, beq_self_eq_true,
      Nat.not_lt_of_le h, if_false, notFoundResponse]
  · intro c k now h
    have hfind : c.entries.find? (fun en => en.key == k) = none := by
      apply List.find?_eq_none.mpr
      intro en hen
      have := (List.all_eq_true.mp h) en hen
      simpa using this
    simp [get_ask_result, TTLStore.get, hfind, notFoundResponse]

/-- C5 witness: a record written at time 0 with the default 120s TTL is
unreadable at time 120, and a never-written id is unreadable. -/
theorem C5_get_ask_result_not_found_witness :
    get_ask_result (TTLStore.set {} "q1" { status := .finished } 0) "q1" 120 =
      { status := .failed, type := some .TEXT_TO_SQL
        error := some ⟨.OTHERS, "q1 is not found"⟩ } ∧
    get_ask_result {} "q2" 0 =
      { status := .failed, type := some .TEXT_TO_SQL
        error := some ⟨.OTHERS, "q2 is not found"⟩ } :=
  ⟨C5_get_ask_result_not_found.1 {} "q1" { status := .finished } 0 120 (by decide),
   C5_get_ask_result_not_found.2 {} "q2" 0 (by decide)⟩

/-- C10: `stop_ask` unconditionally replaces the job record of the query id
with a fresh record whose status is "stopped" and every other field at its
default (response, error, trace_id, type, retrieved_tables and the reasoning
fields all cleared) — whatever record (if any) was stored before. -/
theorem C10_stop_ask_resets_record (c : TTLStore) (k : String) (now : Nat)
    (h : 0 < c.ttl) :
    TTLStore.get (stop_ask c k now) k now =
      some { status := .stopped, rephrased_question := none, intent_reasoning := none
             sql_generation_reasoning := none, type := none, retrieved_tables := none
             response := none, invalid_sql := none, error := none, trace_id := none
             is_followup := false, general_type := none } := by
  have hlt : now < now + c.ttl := Nat.lt_add_of_pos_right h
  simp [stop_ask, TTLStore.get, TTLStore.set, List.find?, hlt, stoppedRecord]

/-- C10 witness: stopping an id that currently holds a finished record with
results replaces it with the fresh stopped record. -/
theorem C10_stop_ask_resets_record_witness :
    TTLStore.get
        (stop_ask
          (TTLStore.set {} "q"
            { status := .finished, response := some [{ sql := "SELECT 1" }]
              trace_id := some "t" } 0)
          "q" 1)
        "q" 1 =
      some { status := .stopped, rephrased_question := none, intent_reasoning := none
             sql_generation_reasoning := none, type := none, retrieved_tables := none
             response := none, invalid_sql := none, error := none, trace_id := none
             is_followup := false, general_type := none } :=
  C10_stop_ask_resets_record
    (TTLStore.set {} "q"
      { status := .finished, response := some [{ sql := "SELECT 1" }]
        trace_id := some "t" } 0)
    "q" 1 (by decide)

/-- C8: whenever parsing or validating the intent-classification LLM JSON
output fails (unparseable reply, non-object value, or a missing
`rephrased_question`/`results`/`reasoning` key), `post_process` returns the
fallback `{rephrased_question: "", intent: "TEXT_TO_SQL", reasoning: ""}` with
the constructed `db_schemas` passed through unchanged. -/
theorem C8_intent_post_process_fallback (loaded : Option JVal)
    (schemas : List String) (h : icParseFails loaded = true) :
    icPostProcess loaded schemas =
      { rephrased_question := .str "", intent := .str "TEXT_TO_SQL"
        reasoning := .str "", db_schemas := schemas } := by
  cases loaded with
  | none => simp [icPostProcess, icFallback]
  | some j =>
    simp only [icParseFails, Bool.or_eq_true, Option.isNone_iff_eq_none] at h
    simp only [icPostProcess]
    rcases h with (h | h) | h <;>
      · cases h1 : jLookup j "rephrased_question" <;>
          cases h2 : jLookup j "results" <;>
          cases h3 : jLookup j "reasoning" <;>
          simp_all [icFallback]

lemma corrCalls_append (l1 l2 : List Ev) :
    corrCalls (l1 ++ l2) = corrCalls l1 + corrCalls l2 := by
  simp [corrCalls, callNames, List.filterMap_append]

lemma corrCalls_write (r : AskResultResponse) : corrCalls [.write r] = 0 := rfl

lemma corrCalls_stopWrite : corrCalls [.stopWrite] = 0 := rfl

lemma corrCalls_call (n : String) (h : Option (List AskHistory)) :
    corrCalls [.call n h] = if n = "sql_correction" then 1 else 0 := by
  by_cases hn : n = "sql_correction" <;>
    simp [corrCalls, callNames, hn, List.count_cons, List.count_nil]

lemma updateStatus_events (r : AskResultResponse) (st : St) :
    (updateStatus r st).events = st.events ++ [.write r] := rfl

lemma recordCall_events (n : String) (h : Option (List AskHistory)) (st : St) :
    (recordCall n h st).events = st.events ++ [.call n h] := rfl

lemma awaitPoint_events (e : Env) (st : St) :
    (awaitPoint e st).events =
      st.events ++ (if e.stops st.awaitN then [.stopWrite] else []) := by
  unfold awaitPoint
  split <;> simp

lemma corrCalls_awaitPoint (e : Env) (st : St) :
    corrCalls (awaitPoint e st).events = corrCalls st.events := by
  rw [awaitPoint_events, corrCalls_append]
  split <;> simp [corrCalls_stopWrite, corrCalls, callNames]

lemma corrCalls_runPipeline (e : Env) (n : String) (h : Option (List AskHistory))
    (st : St) :
    corrCalls (runPipeline e n h st).events =
      corrCalls st.events + (if n = "sql_correction" then 1 else 0) := by
  unfold runPipeline
  rw [corrCalls_awaitPoint, recordCall_events, corrCalls_append, corrCalls_call]

lemma corrCalls_updateStatus (r : AskResultResponse) (st : St) :
    corrCalls (updateStatus r st).events = corrCalls st.events := by
  simp [updateStatus_events, corrCalls_append, corrCalls_write]

lemma corrCalls_corrStep (e : Env) (tn : List String) (rq ir : Option String)
    (fu : Bool) (st : St) :
    corrCalls (corrStep e tn rq ir fu st).events = corrCalls st.events + 1 := by
  unfold corrStep
  rw [corrCalls_runPipeline, corrCalls_updateStatus]
  simp

lemma correctLoop_zero (e : Env) (tn : List String) (rq ir : Option String)
    (fu : Bool) (a : Nat) (failed : Option InvalidResult)
    (isql emsg : Option String) (st : St) :
    correctLoop e tn rq ir fu 0 a failed isql emsg st =
      (.done none isql emsg failed, st) := rfl

lemma correctLoop_continue (e : Env) (tn : List String) (rq ir : Option String)
    (fu : Bool) (fuel a : Nat) (f : InvalidResult) (s : String)
    (isql emsg : Option String) (st : St) (p : GenPost)
    (hs : f.sql = some s) (hto : ¬f.type = some "TIME_OUT")
    (hcorr : e.o.sql_correction a = .ok p)
    (hval : p.valid_generation_result = none) :
    correctLoop e tn rq ir fu (fuel + 1) a (some f) isql emsg st =
      correctLoop e tn rq ir fu fuel (a + 1) p.invalid_generation_result
        (some s) f.error (corrStep e tn rq ir fu st) := by
  simp [correctLoop, hs, hto, hcorr, hval]

lemma correctLoop_validExit (e : Env) (tn : List String) (rq ir : Option String)
    (fu : Bool) (fuel a : Nat) (f : InvalidResult) (s : String)
    (isql emsg : Option String) (st : St) (p : GenPost) (v : GenResult)
    (vs : String)
    (hs : f.sql = some s) (hto : ¬f.type = some "TIME_OUT")
    (hcorr : e.o.sql_correction a = .ok p)
    (hval : p.valid_generation_result = some v) (hvs : v.sql = some vs) :
    correctLoop e tn rq ir fu (fuel + 1) a (some f) isql emsg st =
      (.done (some [{ sql := vs, type := .llm }]) (some s) f.error (some f),
        corrStep e tn rq ir fu st) := by
  simp [correctLoop, hs, hto, hcorr, hval, hvs]

/-- The correction loop dispatches `sql_correction` at most `fuel` times. -/
lemma correctLoop_corrCalls_le (e : Env) (tn : List String) (rq ir : Option String)
    (fu : Bool) :
    ∀ (fuel a : Nat) (failed : Option InvalidResult) (isql emsg : Option String)
      (st : St),
      corrCalls ((correctLoop e tn rq ir fu fuel a failed isql emsg st).2.events) ≤
        corrCalls st.events + fuel := by
  intro fuel
  induction fuel with
  | zero => intro a failed isql emsg st; simp [correctLoop_zero]
  | succ n ih =>
    intro a failed isql emsg st
    rcases failed with _ | f
    · simp [correctLoop]
    rcases hsql : f.sql with _ | s
    · simp [correctLoop, hsql]
    by_cases hto : f.type = some "TIME_OUT"
    · simp [correctLoop, hsql, hto]
    rcases hcorr : e.o.sql_correction a with ex | p
    · have : correctLoop e tn rq ir fu (n + 1) a (some f) isql emsg st =
          (.exn (some s) ex.msg, corrStep e tn rq ir fu st) := by
        simp [correctLoop, hsql, hto, hcorr]
      rw [this]
      simp only []
      rw [corrCalls_corrStep]
      omega
    rcases hval : p.valid_generation_result with _ | v
    · rw [correctLoop_continue e tn rq ir fu n a f s isql emsg st p hsql hto hcorr hval]
      have := ih (a + 1) p.invalid_generation_result (some s) f.error
        (corrStep e tn rq ir fu st)
      rw [corrCalls_corrStep] at this
      omega
    · rcases hvs : v.sql with _ | vs
      · have : correctLoop e tn rq ir fu (n + 1) a (some f) isql emsg st =
            (.exn (some s) "ValidationError", corrStep e tn rq ir fu st) := by
          simp [correctLoop, hsql, hto, hcorr, hval, hvs]
        rw [this]
        simp only []
        rw [corrCalls_corrStep]
        omega
      · rw [correctLoop_validExit e tn rq ir fu n a f s isql emsg st p v vs hsql hto
          hcorr hval hvs]
        simp only []
        rw [corrCalls_corrStep]
        omega

/-- If attempts `a..a+j-1` yield invalid (non-timeout, well-shaped) results and
attempt `a+j` yields a valid one, the loop stops exactly there with the valid
result's SQL. -/
lemma correctLoop_first_valid (e : Env) (tn : List String) (rq ir : Option String)
    (fu : Bool) :
    ∀ (j a fuel : Nat) (f : InvalidResult) (isql emsg : Option String) (st : St)
      (pj : GenPost) (v : GenResult) (vs : String),
      j < fuel → f.sql ≠ none → f.type ≠ some "TIME_OUT" →
      (∀ k, k < j → ∃ fk : InvalidResult,
        e.o.sql_correction (a + k) =
          .ok { valid_generation_result := none, invalid_generation_result := some fk } ∧
        fk.sql ≠ none ∧ fk.type ≠ some "TIME_OUT") →
      e.o.sql_correction (a + j) = .ok pj →
      pj.valid_generation_result = some v → v.sql = some vs →
      ∃ (isql' emsg' : Option String) (lastF : Option InvalidResult) (st' : St),
        correctLoop e tn rq ir fu fuel a (some f) isql emsg st =
          (.done (some [{ sql := vs, type := .llm }]) isql' emsg' lastF, st') ∧
        corrCalls st'.events = corrCalls st.events + (j + 1) := by
  intro j
  induction j with
  | zero =>
    intro a fuel f isql emsg st pj v vs hj hsql hto hInv hcorr hval hvs
    obtain ⟨fuel', rfl⟩ : ∃ m, fuel = m + 1 := ⟨fuel - 1, by omega⟩
    obtain ⟨s, hs⟩ := Option.ne_none_iff_exists'.mp hsql
    rw [Nat.add_zero] at hcorr
    refine ⟨some s, f.error, some f, corrStep e tn rq ir fu st, ?_, ?_⟩
    · exact correctLoop_validExit e tn rq ir fu fuel' a f s isql emsg st pj v vs
        hs hto hcorr hval hvs
    · rw [corrCalls_corrStep]
  | succ j ih =>
    intro a fuel f isql emsg st pj v vs hj hsql hto hInv hcorr hval hvs
    obtain ⟨fuel', rfl⟩ : ∃ m, fuel = m + 1 := ⟨fuel - 1, by omega⟩
    obtain ⟨s, hs⟩ := Option.ne_none_iff_exists'.mp hsql
    obtain ⟨f1, hcorr0, hsql1, hto1⟩ := hInv 0 (Nat.succ_pos j)
    rw [Nat.add_zero] at hcorr0
    have hInv' : ∀ k, k < j → ∃ fk : InvalidResult,
        e.o.sql_correction (a + 1 + k) =
          .ok { valid_generation_result := none, invalid_generation_result := some fk } ∧
        fk.sql ≠ none ∧ fk.type ≠ some "TIME_OUT" := by
      intro k hk
      have := hInv (k + 1) (by omega)
      have harith : a + (k + 1) = a + 1 + k := by omega
      rwa [harith] at this
    have hcorr' : e.o.sql_correction (a + 1 + j) = .ok pj := by
      have harith : a + 1 + j = a + (j + 1) := by omega
      rw [harith]; exact hcorr
    obtain ⟨isql', emsg', lastF, st', hrun, hcount⟩ :=
      ih (a + 1) fuel' f1 (some s) f.error (corrStep e tn rq ir fu st)
        pj v vs (by omega) hsql1 hto1 hInv' hcorr' hval hvs
    refine ⟨isql', emsg', lastF, st', ?_, ?_⟩
    · rw [correctLoop_continue e tn rq ir fu fuel' a f s isql emsg st _ hs hto
        hcorr0 rfl]
      exact hrun
    · rw [hcount, corrCalls_corrStep]
      omega

/-- C4: the SQL correction helper always terminates (it is a total function of
the `max_retries` fuel); it dispatches the `sql_correction` pipeline at most
`max_retries` times; and it stops at the first attempt that yields a valid
generation result, returning that result's SQL. -/
theorem C4_correction_loop_bounded_and_first_valid :
    (∀ (e : Env) (f0 : InvalidResult) (tn : List String) (max_retries : Nat)
        (rq ir : Option String) (fu : Bool) (st : St),
      corrCalls ((correctSql e f0 tn max_retries rq ir fu st).2.events) ≤
        corrCalls st.events + max_retries) ∧
    (∀ (e : Env) (f0 : InvalidResult) (tn : List String) (max_retries j : Nat)
        (rq ir : Option String) (fu : Bool) (st : St) (pj : GenPost)
        (v : GenResult) (vs : String),
      j < max_retries → f0.sql ≠ none → f0.type ≠ some "TIME_OUT" →
      (∀ k, k < j → ∃ fk : InvalidResult,
        e.o.sql_correction k =
          .ok { valid_generation_result := none, invalid_generation_result := some fk } ∧
        fk.sql ≠ none ∧ fk.type ≠ some "TIME_OUT") →
      e.o.sql_correction j = .ok pj →
      pj.valid_generation_result = some v → v.sql = some vs →
      (correctSql e f0 tn max_retries rq ir fu st).1.1 =
          some [{ sql := vs, type := .llm }] ∧
      corrCalls ((correctSql e f0 tn max_retries rq ir fu st).2.events) =
        corrCalls st.events + (j + 1)) := by
  constructor
  · intro e f0 tn max_retries rq ir fu st
    unfold correctSql
    rcases hloop : correctLoop e tn rq ir fu max_retries 0 (some f0) none none st with
      ⟨out, st'⟩
    have hle := correctLoop_corrCalls_le e tn rq ir fu max_retries 0 (some f0)
      none none st
    rw [hloop] at hle
    rcases out with ⟨api, isql, emsg, lastF⟩ | ⟨isql, m⟩
    · rcases api with _ | api
      · rcases lastF with _ | f
        · simpa using hle
        · simpa using hle
      · simpa using hle
    · simpa using hle
  · intro e f0 tn max_retries j rq ir fu st pj v vs hj hsql hto hInv hcorr hval hvs
    have hInv0 : ∀ k, k < j → ∃ fk : InvalidResult,
        e.o.sql_correction (0 + k) =
          .ok { valid_generation_result := none, invalid_generation_result := some fk } ∧
        fk.sql ≠ none ∧ fk.type ≠ some "TIME_OUT" := by
      intro k hk; simpa using hInv k hk
    have hcorr0 : e.o.sql_correction (0 + j) = .ok pj := by simpa using hcorr
    obtain ⟨isql', emsg', lastF, st', hrun, hcount⟩ :=
      correctLoop_first_valid e tn rq ir fu j 0 max_retries f0 none none st pj v vs
        hj hsql hto hInv0 hcorr0 hval hvs
    unfold correctSql
    rw [hrun]
    exact ⟨rfl, hcount⟩

/-- C4 witness: with `max_retries = 3`, an initial invalid result and a first
attempt that yields a valid correction, the loop dispatches exactly once and
returns the corrected SQL; the call count respects the bound. -/
theorem C4_correction_loop_bounded_and_first_valid_witness :
    (correctSql
        { o := { historical_question := .ok [], sql_pairs_retrieval := .ok []
                 instructions_retrieval := .ok [], intent_classification := .error ⟨"e"⟩
                 db_schema_retrieval := .error ⟨"e"⟩
                 sql_generation_reasoning := .error ⟨"e"⟩
                 followup_sql_generation_reasoning := .error ⟨"e"⟩
                 sql_functions_retrieval := .ok [], sql_generation := .error ⟨"e"⟩
                 followup_sql_generation := .error ⟨"e"⟩
                 sql_correction := fun _ =>
                   .ok { valid_generation_result := some { sql := some "SELECT 1" } } }
          stops := fun _ => false, cfg := {}, req := { query_id := "q" } }
        { sql := some "BAD", error := some "syntax", type := some "ERROR" }
        [] 3 none none false {}).1.1 = some [{ sql := "SELECT 1", type := .llm }] := by
  have h := C4_correction_loop_bounded_and_first_valid.2
    { o := { historical_question := .ok [], sql_pairs_retrieval := .ok []
             instructions_retrieval := .ok [], intent_classification := .error ⟨"e"⟩
             db_schema_retrieval := .error ⟨"e"⟩
             sql_generation_reasoning := .error ⟨"e"⟩
             followup_sql_generation_reasoning := .error ⟨"e"⟩
             sql_functions_retrieval := .ok [], sql_generation := .error ⟨"e"⟩
             followup_sql_generation := .error ⟨"e"⟩
             sql_correction := fun _ =>
               .ok { valid_generation_result := some { sql := some "SELECT 1" } } }
      stops := fun _ => false, cfg := {}, req := { query_id := "q" } }
    { sql := some "BAD", error := some "syntax", type := some "ERROR" }
    [] 3 0 none none false {}
    { valid_generation_result := some { sql := some "SELECT 1" } }
    { sql := some "SELECT 1" } "SELECT 1"
    (by decide) (by decide) (by decide)
    (by intro k hk; omega) rfl rfl rfl
  exact h.1

/-- C8 witness: a reply missing the `results` key falls back, keeping the
constructed schemas. -/
theorem C8_intent_post_process_fallback_witness :
    icParseFails (some (.obj [("rephrased_question", .str "x"), ("reasoning", .str "y")]))
      = true ∧
    icPostProcess
        (some (.obj [("rephrased_question", .str "x"), ("reasoning", .str "y")]))
        ["CREATE TABLE users"] =
      { rephrased_question := .str "", intent := .str "TEXT_TO_SQL"
        reasoning := .str "", db_schemas := ["CREATE TABLE users"] } :=
  ⟨by decide,
   C8_intent_post_process_fallback
     (some (.obj [("rephrased_question", .str "x"), ("reasoning", .str "y")]))
     ["CREATE TABLE users"] (by decide)⟩

/-- C3 counterexample: with a cache hit (`historical_question` returns a
non-empty document list) but an enabled intent classification yielding
GENERAL, the service does not return the converted top-1 cached document: it
dispatches the assistance path and returns an empty `ask_result` with GENERAL
metadata. -/
theorem C3_counterexample :
    cacheHitDoc hitGeneralEnv.o = some { statement := "SELECT 9", viewId := some "v1" } ∧
    (ask hitGeneralEnv {}).1 =
      .ok (some { ask_result := none, metadata := { type := "GENERAL" } }) := by
  constructor <;> rfl

/-- C3 (amended): on a historical cache hit the SQL generation pipelines are
never invoked; and unless intent classification is enabled and labels the
query GENERAL/MISLEADING_QUERY/USER_GUIDE (diverting to the assistance path,
see the counterexample), the service returns exactly the top-1 cached
document converted to an `AskResult` ("view" when `viewId` is truthy,
otherwise "llm"). -/
theorem C3_cache_hit_top1 (e : Env) (st : St) (hs : List AskHistory)
    (d : HistDoc) (ds : List HistDoc)
    (hhist : e.req.histories = some hs)
    (hdoc : e.o.historical_question = .ok (d :: ds))
    (hev : st.events = []) :
    ("sql_generation" ∉ callNames (ask e st).2.events ∧
     "followup_sql_generation" ∉ callNames (ask e st).2.events) ∧
    (¬(e.cfg.allow_intent_classification = true ∧
        intentInThree (classifiedIntent e.o) = true) →
      (ask e st).1 =
        .ok (some { ask_result := some [toAskResult d]
                    metadata := { type := "TEXT_TO_SQL", error_type := some ""
                                  error_message := some ""
                                  request_from := some e.req.request_from } })) := by
  unfold ask
  rw [hhist]
  simp only []
  unfold askBody
  rw [chq_hit e _ d ds hdoc]
  simp only []
  unfold handleCacheHit
  by_cases hallow : e.cfg.allow_intent_classification = true
  · rw [if_pos hallow]
    rcases hic : e.o.intent_classification with ex | p
    · rw [classifyIntent_err e _ _ ex hic]
      simp only [Option.map_none']
      rw [show intentInThree none = false from rfl]
      simp only [Bool.false_eq_true, if_false]
      constructor
      · constructor <;> simp [formatCachedResponse, hev]
      · intro _
        simp [formatCachedResponse]
    · rw [classifyIntent_ok e _ _ p hic]
      simp only [Option.map_some']
      by_cases hin3 : intentInThree (some p.intent) = true
      · rw [if_pos hin3]
        have hdiv : e.cfg.allow_intent_classification = true ∧
            intentInThree (classifiedIntent e.o) = true := by
          refine ⟨hallow, ?_⟩
          rw [classifiedIntent, hic]
          exact hin3
        refine ⟨?_, fun hneg => absurd hdiv hneg⟩
        have h3 : (p.intent = "GENERAL" ∨ p.intent = "MISLEADING_QUERY") ∨
            p.intent = "USER_GUIDE" := by
          simpa [intentInThree] using hin3
        unfold handleGeneralQuery
        rcases h3 with (h | h) | h <;> rw [h] <;>
          constructor <;> simp [hev]
      · rw [if_neg hin3]
        constructor
        · constructor <;> simp [formatCachedResponse, hev]
        · intro _
          simp [formatCachedResponse]
  · rw [if_neg hallow]
    constructor
    · constructor <;> simp [formatCachedResponse, hev]
    · intro _
      simp [formatCachedResponse]

/-- C3 witness: the cache-hit theorem instantiated on the hit environment;
its assistance-divert guard is exactly what the counterexample exercises. -/
theorem C3_cache_hit_top1_witness :
    ("sql_generation" ∉ callNames (ask hitGeneralEnv {}).2.events ∧
     "followup_sql_generation" ∉ callNames (ask hitGeneralEnv {}).2.events) ∧
    (¬(hitGeneralEnv.cfg.allow_intent_classification = true ∧
        intentInThree (classifiedIntent hitGeneralEnv.o) = true) →
      (ask hitGeneralEnv {}).1 =
        .ok (some { ask_result := some [toAskResult ⟨"SELECT 9", some "v1"⟩]
                    metadata := { type := "TEXT_TO_SQL", error_type := some ""
                                  error_message := some ""
                                  request_from :=
                                    some hitGeneralEnv.req.request_from } })) :=
  C3_cache_hit_top1 hitGeneralEnv {} [] ⟨"SELECT 9", some "v1"⟩ [] rfl rfl rfl

/-- C2: whenever the run's intent classification succeeds with a GENERAL,
MISLEADING_QUERY or USER_GUIDE label (which requires either a cache miss or
`allow_intent_classification`), the ask flow dispatches exactly the matching
assistance pipeline, records a finished GENERAL-typed status, returns
normally, and never invokes `sql_generation` or `followup_sql_generation`. -/
theorem C2_general_intents_routed (e : Env) (st : St) (hs : List AskHistory)
    (ip : IntentPost)
    (hhist : e.req.histories = some hs)
    (hic : e.o.intent_classification = .ok ip)
    (hin3 : intentInThree (some ip.intent) = true)
    (hrun : cacheHitDoc e.o = none ∨ e.cfg.allow_intent_classification = true)
    (hev : st.events = []) :
    (∃ r, (ask e st).1 = .ok (some r)) ∧
    assistancePipeline ip.intent ∈ callNames (ask e st).2.events ∧
    (∀ n ∈ ["misleading_assistance", "data_assistance", "user_guide_assistance"],
      n ≠ assistancePipeline ip.intent → n ∉ callNames (ask e st).2.events) ∧
    (∃ w ∈ writesOf (ask e st).2.events,
      w.status = .finished ∧ w.type = some .GENERAL ∧
      w.general_type = generalTypeFor ip.intent) ∧
    "sql_generation" ∉ callNames (ask e st).2.events ∧
    "followup_sql_generation" ∉ callNames (ask e st).2.events := by
  unfold ask
  rw [hhist]
  simp only []
  unfold askBody
  rcases hhq : e.o.historical_question with ex | docs
  · rw [chq_miss_err e _ ex hhq]
    simp only []
    unfold askMiss
    rw [classifyIntent_ok e _ _ ip hic]
    simp only [Option.map_some']
    rw [if_pos hin3]
    obtain ⟨gt, ha, r, hgt, heq⟩ := hgq_intent3_facts e
      (ctxHistoriesOf hs e.cfg.max_histories) (some ip.rephrased_question)
      (some ip.reasoning) (!(ctxHistoriesOf hs e.cfg.max_histories).isEmpty)
      (runPipeline e "intent_classification"
        (some (ctxHistoriesOf hs e.cfg.max_histories))
        (runPipeline e "historical_question" none
          (if isStopped st = true then st
           else updateStatus (understandingWrite e
             (!(ctxHistoriesOf hs e.cfg.max_histories).isEmpty)) st)))
      ip.intent hin3
    rw [heq]
    simp only []
    refine ⟨⟨r, rfl⟩, by simp [hev], ?_, ?_,
      by simp [hev, sql_generation_ne_assistance ip.intent],
      by simp [hev, followup_sql_generation_ne_assistance ip.intent]⟩
    · intro n hn hne
      have hn' : n = "misleading_assistance" ∨ n = "data_assistance" ∨
          n = "user_guide_assistance" := by simpa using hn
      rcases hn' with rfl | rfl | rfl <;> simp_all [hev]
    · refine ⟨finishedGeneralWrite e (some ip.rephrased_question)
        (some ip.reasoning) (!(ctxHistoriesOf hs e.cfg.max_histories).isEmpty) gt,
        ?_, rfl, rfl, by simp [finishedGeneralWrite, hgt]⟩
      by_cases hg : isStopped st = true <;> simp [hg, hev]
  · rcases docs with _ | ⟨d, ds⟩
    · obtain ⟨sp, ins, hchq⟩ := chq_miss_empty e
        (if isStopped st = true then st
         else updateStatus (understandingWrite e
           (!(ctxHistoriesOf hs e.cfg.max_histories).isEmpty)) st) hhq
      rw [hchq]
      simp only []
      unfold askMiss
      rw [classifyIntent_ok e _ _ ip hic]
      simp only [Option.map_some']
      rw [if_pos hin3]
      obtain ⟨gt, ha, r, hgt, heq⟩ := hgq_intent3_facts e
        (ctxHistoriesOf hs e.cfg.max_histories) (some ip.rephrased_question)
        (some ip.reasoning) (!(ctxHistoriesOf hs e.cfg.max_histories).isEmpty)
        (runPipeline e "intent_classification"
          (some (ctxHistoriesOf hs e.cfg.max_histories))
          (gatherSt e
            (if isStopped st = true then st
             else updateStatus (understandingWrite e
               (!(ctxHistoriesOf hs e.cfg.max_histories).isEmpty)) st)))
        ip.intent hin3
      rw [heq]
      simp only []
      refine ⟨⟨r, rfl⟩, by simp [hev, gatherSt], ?_, ?_,
        by simp [hev, gatherSt, sql_generation_ne_assistance ip.intent],
        by simp [hev, gatherSt, followup_sql_generation_ne_assistance ip.intent]⟩
      · intro n hn hne
        have hn' : n = "misleading_assistance" ∨ n = "data_assistance" ∨
            n = "user_guide_assistance" := by simpa using hn
        rcases hn' with rfl | rfl | rfl <;> simp_all [hev, gatherSt]
      · refine ⟨finishedGeneralWrite e (some ip.rephrased_question)
          (some ip.reasoning) (!(ctxHistoriesOf hs e.cfg.max_histories).isEmpty) gt,
          ?_, rfl, rfl, by simp [finishedGeneralWrite, hgt]⟩
        by_cases hg : isStopped st = true <;> simp [hg, hev, gatherSt]
    · have hallow : e.cfg.allow_intent_classification = true := by
        rcases hrun with hnone | hallow
        · rw [cacheHitDoc, hhq] at hnone
          exact absurd hnone (by simp)
        · exact hallow
      rw [chq_hit e _ d ds hhq]
      simp only []
      unfold handleCacheHit
      rw [if_pos hallow]
      rw [classifyIntent_ok e _ _ ip hic]
      simp only [Option.map_some']
      rw [if_pos hin3]
      obtain ⟨gt, ha, r, hgt, heq⟩ := hgq_intent3_facts e
        (ctxHistoriesOf hs e.cfg.max_histories) (some ip.rephrased_question)
        (some ip.reasoning) (!(ctxHistoriesOf hs e.cfg.max_histories).isEmpty)
        (runPipeline e "intent_classification"
          (some (ctxHistoriesOf hs e.cfg.max_histories))
          (runPipeline e "historical_question" none
            (if isStopped st = true then st
             else updateStatus (understandingWrite e
               (!(ctxHistoriesOf hs e.cfg.max_histories).isEmpty)) st)))
        ip.intent hin3
      rw [heq]
      simp only []
      refine ⟨⟨r, rfl⟩, by simp [hev], ?_, ?_,
        by simp [hev, sql_generation_ne_assistance ip.intent],
        by simp [hev, followup_sql_generation_ne_assistance ip.intent]⟩
      · intro n hn hne
        have hn' : n = "misleading_assistance" ∨ n = "data_assistance" ∨
            n = "user_guide_assistance" := by simpa using hn
        rcases hn' with rfl | rfl | rfl <;> simp_all [hev]
      · refine ⟨finishedGeneralWrite e (some ip.rephrased_question)
          (some ip.reasoning) (!(ctxHistoriesOf hs e.cfg.max_histories).isEmpty) gt,
          ?_, rfl, rfl, by simp [finishedGeneralWrite, hgt]⟩
        by_cases hg : isStopped st = true <;> simp [hg, hev]

/-- C2 witness: at a concrete cache-hit run with an enabled classification
labelling the query GENERAL, `data_assistance` is dispatched and
`sql_generation` is not. -/
theorem C2_general_intents_routed_witness :
    "data_assistance" ∈ callNames (ask hitGeneralEnv {}).2.events ∧
    "sql_generation" ∉ callNames (ask hitGeneralEnv {}).2.events := by
  have h := C2_general_intents_routed hitGeneralEnv {} []
    { intent := "GENERAL", rephrased_question := "", reasoning := "" }
    rfl rfl (by decide) (Or.inr rfl) rfl
  exact ⟨h.2.1, h.2.2.2.2.1⟩

section HistOkLemmas

variable {ctx : List AskHistory} {st : St}

lemma hkUp (r : AskResultResponse) (h : HistOk ctx st.events) :
    HistOk ctx (updateStatus r st).events := by
  simpa [HistOk, updateStatus_events'] using h

lemma hkRc0 (n : String) (h : HistOk ctx st.events) :
    HistOk ctx (recordCall n none st).events := by
  simpa [HistOk, recordCall_events'] using h

lemma hkRcC (n : String) (h : HistOk ctx st.events) :
    HistOk ctx (recordCall n (some ctx) st).events := by
  intro x hx
  simp only [recordCall_events', callHistories_append, callHistories_call,
    Option.toList_some, List.mem_append, List.mem_singleton] at hx
  rcases hx with hx | rfl
  · exact h x hx
  · rfl

lemma hkAw (e : Env) (h : HistOk ctx st.events) :
    HistOk ctx (awaitPoint e st).events := by
  intro x hx
  rw [awaitPoint_events'] at hx
  simp only [callHistories_append, callHistories_if_stop, List.append_nil] at hx
  exact h x hx

lemma hkRun0 (e : Env) (n : String) (h : HistOk ctx st.events) :
    HistOk ctx (runPipeline e n none st).events :=
  hkAw e (hkRc0 n h)

lemma hkRunC (e : Env) (n : String) (h : HistOk ctx st.events) :
    HistOk ctx (runPipeline e n (some ctx) st).events :=
  hkAw e (hkRcC n h)

lemma hkGather (e : Env) (h : HistOk ctx st.events) :
    HistOk ctx (gatherSt e st).events :=
  hkAw e (hkRc0 _ (hkRc0 _ (hkRun0 e _ h)))

lemma hkSchema (e : Env) (rq ir : Option String) (fu : Bool)
    (h : HistOk ctx st.events) :
    HistOk ctx (schemaStep e ctx rq ir fu st).events :=
  hkRunC e _ (hkUp _ h)

lemma hkCorrStep (e : Env) (tn : List String) (rq ir : Option String) (fu : Bool)
    (h : HistOk ctx st.events) :
    HistOk ctx (corrStep e tn rq ir fu st).events :=
  hkRun0 e _ (hkUp _ h)

lemma hkIte (c : Prop) [Decidable c] {s1 s2 : St}
    (h1 : HistOk ctx s1.events) (h2 : HistOk ctx s2.events) :
    HistOk ctx (if c then s1 else s2).events := by
  split
  · exact h1
  · exact h2

lemma hkChq (e : Env) (h : HistOk ctx st.events) :
    HistOk ctx (checkHistoricalQuestion e st).2.events := by
  unfold checkHistoricalQuestion
  split
  · exact hkRun0 e _ h
  · split
    · split
      · exact hkGather e h
      · exact hkGather e h
      · exact hkGather e h
      · exact hkGather e h
    · exact hkRun0 e _ h

lemma hkCi (e : Env) (h : HistOk ctx st.events) :
    HistOk ctx (classifyIntent e ctx st).2.events := by
  unfold classifyIntent
  split
  · exact hkRunC e _ h
  · exact hkRunC e _ h

lemma hkHgq (e : Env) (i : Option String) (rq ir : Option String) (fu : Bool)
    (h : HistOk ctx st.events) :
    HistOk ctx (handleGeneralQuery e i ctx rq ir fu st).2.events := by
  unfold handleGeneralQuery
  split
  · exact hkUp _ (hkRcC _ h)
  · split
    · exact hkUp _ (hkRcC _ h)
    · split
      · exact hkUp _ (hkRc0 _ h)
      · exact hkUp _ h

lemma hkGsr (e : Env) (tn : List String) (rq ir : Option String) (fu : Bool)
    (h : HistOk ctx st.events) :
    HistOk ctx (generateSqlReasoning e ctx tn rq ir fu st).2.events := by
  unfold generateSqlReasoning
  split
  · split
    · exact hkRun0 e _ (hkUp _ h)
    · exact hkUp _ (hkRun0 e _ (hkUp _ h))
  · split
    · exact hkRunC e _ (hkUp _ h)
    · exact hkUp _ (hkRunC e _ (hkUp _ h))

lemma hkRds (e : Env) (rq ir : Option String) (fu : Bool)
    (h : HistOk ctx st.events) :
    HistOk ctx (retrieveDatabaseSchemas e ctx rq ir fu st).2.events := by
  unfold retrieveDatabaseSchemas
  split
  · exact hkSchema e rq ir fu h
  · split
    · exact hkIte _ (hkSchema e rq ir fu h) (hkUp _ (hkSchema e rq ir fu h))
    · exact hkSchema e rq ir fu h

lemma hkGsd (e : Env) (h : HistOk ctx st.events) :
    HistOk ctx (generateSqlDispatch e ctx st).2.events := by
  unfold generateSqlDispatch
  split
  · split
    · exact hkRun0 e _ h
    · exact hkRun0 e _ h
  · split
    · exact hkRunC e _ h
    · exact hkRunC e _ h

lemma hkGs (e : Env) (tn : List String) (srea : Option String)
    (rq ir : Option String) (fu : Bool) (h : HistOk ctx st.events) :
    HistOk ctx (generateSql e ctx tn srea rq ir fu st).2.events := by
  unfold generateSql
  split
  · split
    · exact hkRun0 e _ (hkUp _ h)
    · exact hkGsd e (hkRun0 e _ (hkUp _ h))
  · exact hkGsd e (hkUp _ h)

lemma hkLoop (e : Env) (tn : List String) (rq ir : Option String) (fu : Bool) :
    ∀ (fuel a : Nat) (failed : Option InvalidResult) (isql emsg : Option String)
      (st : St), HistOk ctx st.events →
      HistOk ctx ((correctLoop e tn rq ir fu fuel a failed isql emsg st).2).events := by
  intro fuel
  induction fuel with
  | zero => intro a failed isql emsg st h; exact h
  | succ n ih =>
    intro a failed isql emsg st h
    rcases failed with _ | f
    · exact h
    rcases hsql : f.sql with _ | s
    · simp only [correctLoop, hsql]
      exact h
    by_cases hto : f.type = some "TIME_OUT"
    · simp only [correctLoop, hsql, hto, if_pos rfl]
      exact h
    rcases hcorr : e.o.sql_correction a with ex | p
    · simp only [correctLoop, hsql, if_neg hto, hcorr]
      exact hkCorrStep e tn rq ir fu h
    rcases hval : p.valid_generation_result with _ | v
    · rw [correctLoop_continue e tn rq ir fu n a f s isql emsg st p hsql hto hcorr hval]
      exact ih (a + 1) _ _ _ _ (hkCorrStep e tn rq ir fu h)
    rcases hvs : v.sql with _ | vs
    · simp only [correctLoop, hsql, if_neg hto, hcorr, hval, hvs]
      exact hkCorrStep e tn rq ir fu h
    · rw [correctLoop_validExit e tn rq ir fu n a f s isql emsg st p v vs hsql hto
        hcorr hval hvs]
      exact hkCorrStep e tn rq ir fu h

lemma hkCorrSql (e : Env) (f0 : InvalidResult) (tn : List String) (mr : Nat)
    (rq ir : Option String) (fu : Bool) (h : HistOk ctx st.events) :
    HistOk ctx ((correctSql e f0 tn mr rq ir fu st).2).events := by
  unfold correctSql
  have hl := hkLoop e tn rq ir fu mr 0 (some f0) none none st h
  rcases hloop : correctLoop e tn rq ir fu mr 0 (some f0) none none st with ⟨out, st'⟩
  rw [hloop] at hl
  rcases out with ⟨api, isql, emsg, lastF⟩ | ⟨isql, m⟩
  · rcases api with _ | api
    · rcases lastF with _ | f <;> exact hl
    · exact hl
  · exact hl

lemma hkFfr (e : Env) (api : Option (List AskResult)) (emsg isql : Option String)
    (rq ir : Option String) (tn : List String) (srea : Option String) (fu : Bool)
    (h : HistOk ctx st.events) :
    HistOk ctx (formatFinalResponse e api emsg isql rq ir tn srea fu st).2.events := by
  unfold formatFinalResponse
  split
  · exact hkIte _ h (hkUp _ h)
  · exact hkIte _ h (hkUp _ h)

lemma hkFcr (e : Env) (api : List AskResult) (rq ir : Option String)
    (tn : List String) (srea : Option String) (fu : Bool)
    (h : HistOk ctx st.events) :
    HistOk ctx (formatCachedResponse e api rq ir tn srea fu st).2.events := by
  unfold formatCachedResponse
  exact hkIte _ h (hkUp _ h)

lemma hkFfrPair (e : Env) (api : Option (List AskResult))
    (emsg isql : Option String) (rq ir : Option String) (tn : List String)
    (srea : Option String) (fu : Bool) {r : AskReturn} {st' : St}
    (heq : formatFinalResponse e api emsg isql rq ir tn srea fu st = (r, st'))
    (h : HistOk ctx st.events) : HistOk ctx st'.events := by
  have := @hkFfr ctx st e api emsg isql rq ir tn srea fu h
  rw [heq] at this
  exact this

lemma hkTail (e : Env) (fu : Bool) (tn : List String) (rq ir srea : Option String)
    (h : HistOk ctx st.events) :
    HistOk ctx (askTail e ctx fu tn rq ir srea st).2.events := by
  unfold askTail
  split
  · rcases hf : formatFinalResponse e (some []) none none rq ir tn srea fu st
      with ⟨r, st'⟩
    exact hkFfrPair e _ _ _ _ _ _ _ _ hf h
  · rcases hgen : generateSql e ctx tn srea rq ir fu st with ⟨p?, st1⟩
    have h1 : HistOk ctx st1.events := by
      have := hkGs e tn srea rq ir fu h
      rw [hgen] at this
      exact this
    rcases p? with _ | p
    · exact h1
    simp only []
    rcases hval : p.valid_generation_result with _ | v
    · simp only []
      rcases hinv : p.invalid_generation_result with _ | f
      · simp only []
        rcases hf : formatFinalResponse e (some []) none none rq ir tn srea fu st1
          with ⟨r, st'⟩
        exact hkFfrPair e _ _ _ _ _ _ _ _ hf h1
      · simp only []
        rcases hcs : correctSql e f tn e.cfg.max_sql_correction_retries rq ir fu st1
          with ⟨⟨api, isql, emsg⟩, st2⟩
        have h2 : HistOk ctx st2.events := by
          have := @hkCorrSql ctx st1 e f tn e.cfg.max_sql_correction_retries
            rq ir fu h1
          rw [hcs] at this
          exact this
        simp only []
        rcases hf : formatFinalResponse e api emsg isql rq ir tn srea fu st2
          with ⟨r, st'⟩
        exact hkFfrPair e _ _ _ _ _ _ _ _ hf h2
    · simp only []
      rcases hvs : v.sql with _ | vs
      · exact h1
      · simp only []
        rcases hf : formatFinalResponse e (some [{ sql := vs, type := .llm }])
            none none rq ir tn srea fu st1 with ⟨r, st'⟩
        exact hkFfrPair e _ _ _ _ _ _ _ _ hf h1

set_option maxHeartbeats 1000000 in
lemma hkMiss (e : Env) (fu : Bool) (h : HistOk ctx st.events) :
    HistOk ctx (askMiss e ctx fu st).2.events := by
  unfold askMiss
  rcases hci : classifyIntent e ctx st with ⟨ip, st1⟩
  have h1 : HistOk ctx st1.events := by
    have := hkCi e h
    rw [hci] at this
    exact this
  simp only []
  split
  · exact hkHgq e _ _ _ _ h1
  · split
    · next a st2 heq =>
        have h2 : HistOk ctx st2.events := by
          have := @hkRds ctx st1 e (Option.map (fun p => p.rephrased_question) ip)
            (Option.map (fun p => p.reasoning) ip) fu h1
          rw [heq] at this
          exact this
        exact h2
    · next tn td ret st2 heq =>
        have h2 : HistOk ctx st2.events := by
          have := @hkRds ctx st1 e (Option.map (fun p => p.rephrased_question) ip)
            (Option.map (fun p => p.reasoning) ip) fu h1
          rw [heq] at this
          exact this
        split
        · exact hkTail e fu tn _ _ _ (@hkGsr ctx st2 e tn
            (Option.map (fun p => p.rephrased_question) ip)
            (Option.map (fun p => p.reasoning) ip) fu h2)
        · exact hkTail e fu tn _ _ _ h2

lemma hkBody (e : Env) (fu : Bool) (h : HistOk ctx st.events) :
    HistOk ctx (askBody e ctx fu st).2.events := by
  unfold askBody
  have hg : HistOk ctx (if isStopped st = true then st
      else updateStatus (understandingWrite e fu) st).events :=
    hkIte _ h (hkUp _ h)
  rcases hchq : checkHistoricalQuestion e
      (if isStopped st = true then st
       else updateStatus (understandingWrite e fu) st) with ⟨cc, st1⟩
  have h1 : HistOk ctx st1.events := by
    have := hkChq e hg
    rw [hchq] at this
    exact this
  rcases cc with api | ⟨sp, ins⟩
  · simp only []
    unfold handleCacheHit
    split
    · rcases hci : classifyIntent e ctx st1 with ⟨ip, st2⟩
      have h2 : HistOk ctx st2.events := by
        have := hkCi e h1
        rw [hci] at this
        exact this
      simp only []
      split
      · exact hkHgq e _ _ _ _ h2
      · exact hkFcr e _ _ _ _ _ _ h2
    · exact hkFcr e _ _ _ _ _ _ h1
  · exact hkMiss e fu h1

end HistOkLemmas

/-- C9: the conversation history every downstream pipeline call receives is
exactly `ask_request.histories[:max_histories][::-1]`, i.e. the first
`min(len(histories), max_histories)` caller-supplied entries in reversed
order (entries beyond `max_histories` are silently discarded; the service
default for `max_histories` is 5). -/
theorem C9_downstream_histories (e : Env) (st : St) (hs : List AskHistory)
    (hhist : e.req.histories = some hs) (hev : st.events = []) :
    (∀ h ∈ callHistories (ask e st).2.events,
      h = (hs.take (min hs.length e.cfg.max_histories)).reverse) ∧
    ctxHistoriesOf hs e.cfg.max_histories =
      (hs.take (min hs.length e.cfg.max_histories)).reverse ∧
    (ctxHistoriesOf hs e.cfg.max_histories).length =
      min hs.length e.cfg.max_histories := by
  have htake : hs.take e.cfg.max_histories =
      hs.take (min hs.length e.cfg.max_histories) := by
    rw [List.take_eq_take]
    omega
  have hctx : ctxHistoriesOf hs e.cfg.max_histories =
      (hs.take (min hs.length e.cfg.max_histories)).reverse := by
    rw [ctxHistoriesOf, htake]
  refine ⟨?_, hctx, ?_⟩
  · intro h hmem
    have hok : HistOk (ctxHistoriesOf hs e.cfg.max_histories)
        (ask e st).2.events := by
      unfold ask
      rw [hhist]
      simp only []
      have h0 : HistOk (ctxHistoriesOf hs e.cfg.max_histories) st.events := by
        intro x hx
        rw [hev] at hx
        simp [callHistories] at hx
      have hb := hkBody e (!(ctxHistoriesOf hs e.cfg.max_histories).isEmpty) h0
      rcases hbody : askBody e (ctxHistoriesOf hs e.cfg.max_histories)
          (!(ctxHistoriesOf hs e.cfg.max_histories).isEmpty) st with ⟨res, st'⟩
      rw [hbody] at hb
      rcases res with ex | r
      · exact hkUp _ hb
      · exact hb
    rw [← hctx]
    exact hok h hmem
  · rw [ctxHistoriesOf, List.length_reverse, List.length_take]
    omega

/-- C9 witness: a seven-entry history with the default `max_histories = 5`
reaches the intent-classification pipeline as the reversed first five
entries. -/
theorem C9_downstream_histories_witness :
    (callHistories
        (ask { sampleEnv with
                 req := { query_id := "q"
                          histories := some [⟨"s1", "q1"⟩, ⟨"s2", "q2"⟩,
                                             ⟨"s3", "q3"⟩, ⟨"s4", "q4"⟩,
                                             ⟨"s5", "q5"⟩, ⟨"s6", "q6"⟩,
                                             ⟨"s7", "q7"⟩] } } {}).2.events).all
      (fun h => h == [⟨"s5", "q5"⟩, ⟨"s4", "q4"⟩, ⟨"s3", "q3"⟩, ⟨"s2", "q2"⟩,
        ⟨"s1", "q1"⟩]) = true ∧
    ctxHistoriesOf [⟨"s1", "q1"⟩, ⟨"s2", "q2"⟩, ⟨"s3", "q3"⟩, ⟨"s4", "q4"⟩,
        ⟨"s5", "q5"⟩, ⟨"s6", "q6"⟩, ⟨"s7", "q7"⟩] 5 =
      [⟨"s5", "q5"⟩, ⟨"s4", "q4"⟩, ⟨"s3", "q3"⟩, ⟨"s2", "q2"⟩, ⟨"s1", "q1"⟩] ∧
    (ctxHistoriesOf [⟨"s1", "q1"⟩, ⟨"s2", "q2"⟩, ⟨"s3", "q3"⟩, ⟨"s4", "q4"⟩,
        ⟨"s5", "q5"⟩, ⟨"s6", "q6"⟩, ⟨"s7", "q7"⟩] 5).length = 5 := by
  have h := C9_downstream_histories
    { sampleEnv with
        req := { query_id := "q"
                 histories := some [⟨"s1", "q1"⟩, ⟨"s2", "q2"⟩, ⟨"s3", "q3"⟩,
                                    ⟨"s4", "q4"⟩, ⟨"s5", "q5"⟩, ⟨"s6", "q6"⟩,
                                    ⟨"s7", "q7"⟩] } } {}
    [⟨"s1", "q1"⟩, ⟨"s2", "q2"⟩, ⟨"s3", "q3"⟩, ⟨"s4", "q4"⟩, ⟨"s5", "q5"⟩,
     ⟨"s6", "q6"⟩, ⟨"s7", "q7"⟩] rfl rfl
  refine ⟨?_, h.2.1.trans rfl, h.2.2.trans rfl⟩
  rw [List.all_eq_true]
  intro x hx
  have hx2 := h.1 x hx
  subst hx2
  rfl

section WriteSegLemmas

lemma status_mem_all (s : AskStatus) : s ∈ allStatuses := by
  cases s <;> simp [allStatuses]

@[simp] lemma understandingWrite_status (e : Env) (fu : Bool) :
    (understandingWrite e fu).status = .understanding := rfl

@[simp] lemma searchingWrite_status (e : Env) (rq ir : Option String) (fu : Bool) :
    (searchingWrite e rq ir fu).status = .searching := rfl

@[simp] lemma planningWrite_status (e : Env) (tn : List String)
    (rq ir srea : Option String) (fu : Bool) :
    (planningWrite e tn rq ir srea fu).status = .planning := rfl

@[simp] lemma generatingWrite_status (e : Env) (tn : List String)
    (srea rq ir : Option String) (fu : Bool) :
    (generatingWrite e tn srea rq ir fu).status = .generating := rfl

@[simp] lemma correctingWrite_status (e : Env) (tn : List String)
    (rq ir : Option String) (fu : Bool) :
    (correctingWrite e tn rq ir fu).status = .correcting := rfl

@[simp] lemma finishedGeneralWrite_status (e : Env) (rq ir : Option String)
    (fu : Bool) (gt : GeneralType) :
    (finishedGeneralWrite e rq ir fu gt).status = .finished := rfl

@[simp] lemma failedNoDataWrite_status (e : Env) (rq ir : Option String)
    (fu : Bool) : (failedNoDataWrite e rq ir fu).status = .failed := rfl

@[simp] lemma finishedWrite_status (e : Env) (api : Option (List AskResult))
    (rq ir : Option String) (tn : List String) (srea : Option String) (fu : Bool) :
    (finishedWrite e api rq ir tn srea fu).status = .finished := rfl

@[simp] lemma failedNoSqlWrite_status (e : Env) (emsg isql rq ir : Option String)
    (tn : List String) (srea : Option String) (fu : Bool) :
    (failedNoSqlWrite e emsg isql rq ir tn srea fu).status = .failed := rfl

@[simp] lemma failedOthersWrite_status (e : Env) (fu : Bool) (msg : String) :
    (failedOthersWrite e fu msg).status = .failed := rfl

lemma pairwise_snoc_all {W : List AskResultResponse} {w : AskResultResponse}
    (h : List.Pairwise writeOrder W) (hall : ∀ x ∈ W, writeOrder x w) :
    List.Pairwise writeOrder (W ++ [w]) := by
  rw [List.pairwise_append]
  exact ⟨h, List.pairwise_singleton _ _, fun x hx y hy => by
    rw [List.mem_singleton] at hy
    subst hy
    exact hall x hx⟩

lemma pairwise_replicate_writeOrder (k : Nat) (c : AskResultResponse)
    (hc : writeOrder c c) : List.Pairwise writeOrder (List.replicate k c) := by
  induction k with
  | zero => exact List.Pairwise.nil
  | succ n ih =>
    rw [List.replicate_succ]
    refine List.Pairwise.cons ?_ ih
    intro y hy
    rw [List.eq_of_mem_replicate hy]
    exact hc

lemma pairwise_append_all {W1 W2 : List AskResultResponse}
    (h1 : List.Pairwise writeOrder W1) (h2 : List.Pairwise writeOrder W2)
    (hall : ∀ x ∈ W1, ∀ y ∈ W2, writeOrder x y) :
    List.Pairwise writeOrder (W1 ++ W2) := by
  rw [List.pairwise_append]
  exact ⟨h1, h2, hall⟩

lemma inflightLe_mono {j k : Nat} {W : List AskResultResponse} (hjk : j ≤ k)
    (h : InflightLe j W) : InflightLe k W := by
  intro w hw
  exact ⟨(h w hw).1, le_trans (h w hw).2 hjk⟩

lemma inflightLe_append {k : Nat} {W1 W2 : List AskResultResponse}
    (h1 : InflightLe k W1) (h2 : InflightLe k W2) : InflightLe k (W1 ++ W2) := by
  intro w hw
  rcases List.mem_append.mp hw with hw | hw
  · exact h1 w hw
  · exact h2 w hw

lemma inflightLe_nil (k : Nat) : InflightLe k [] := by
  intro w hw
  simp at hw

lemma isStopped_some (st : St) (h : isStopped st = true) :
    ∃ r, st.record = some r ∧ r.status = .stopped := by
  unfold isStopped at h
  rcases hrec : st.record with _ | r
  · rw [hrec] at h
    simp at h
  · rw [hrec] at h
    simp only [] at h
    refine ⟨r, rfl, ?_⟩
    rcases hs : r.status <;> rw [hs] at h <;> simp_all

/-- No helper before schema retrieval performs a write:
`_check_historical_question`. -/
lemma wChq (e : Env) (st : St) :
    writesOf (checkHistoricalQuestion e st).2.events = writesOf st.events := by
  unfold checkHistoricalQuestion
  split
  · simp
  · split
    · split <;> simp [gatherSt]
    · simp

lemma rChq (e : Env) (st : St) :
    (checkHistoricalQuestion e st).2.record = st.record ∨
      (checkHistoricalQuestion e st).2.record = some stoppedRecord := by
  unfold checkHistoricalQuestion
  split
  · simp only [runPipeline_record]
    split
    · exact Or.inr rfl
    · exact Or.inl rfl
  · split
    · have : (gatherSt e st).record = st.record ∨
          (gatherSt e st).record = some stoppedRecord := by
        unfold gatherSt
        simp only [awaitPoint_record, recordCall_record, runPipeline_record]
        split
        · exact Or.inr rfl
        · split
          · exact Or.inr rfl
          · exact Or.inl rfl
      split <;> exact this
    · simp only [runPipeline_record]
      split
      · exact Or.inr rfl
      · exact Or.inl rfl

lemma wCi (e : Env) (ctx : List AskHistory) (st : St) :
    writesOf (classifyIntent e ctx st).2.events = writesOf st.events := by
  unfold classifyIntent
  split <;> simp

lemma wSchemaStep (e : Env) (hist : List AskHistory) (rq ir : Option String)
    (fu : Bool) (st : St) :
    writesOf (schemaStep e hist rq ir fu st).events =
      writesOf st.events ++ [searchingWrite e rq ir fu] := by
  unfold schemaStep
  simp

lemma wGsr (e : Env) (ctx : List AskHistory) (tn : List String)
    (rq ir : Option String) (fu : Bool) (st : St) :
    ∃ W, writesOf (generateSqlReasoning e ctx tn rq ir fu st).2.events =
        writesOf st.events ++ W ∧ ∀ w ∈ W, w.status = .planning := by
  unfold generateSqlReasoning
  split
  · split
    next ex heq =>
      refine ⟨[planningWrite e tn rq ir none fu], by simp, ?_⟩
      intro w hw
      rw [List.mem_singleton] at hw
      subst hw
      rfl
    next s heq =>
      refine ⟨[planningWrite e tn rq ir none fu,
        planningWrite e tn rq ir (some s) fu], by simp, ?_⟩
      intro w hw
      simp only [List.mem_cons, List.not_mem_nil, or_false] at hw
      rcases hw with rfl | rfl <;> rfl
  · split
    next ex heq =>
      refine ⟨[planningWrite e tn rq ir none fu], by simp, ?_⟩
      intro w hw
      rw [List.mem_singleton] at hw
      subst hw
      rfl
    next s heq =>
      refine ⟨[planningWrite e tn rq ir none fu,
        planningWrite e tn rq ir (some s) fu], by simp, ?_⟩
      intro w hw
      simp only [List.mem_cons, List.not_mem_nil, or_false] at hw
      rcases hw with rfl | rfl <;> rfl

lemma wGs (e : Env) (ctx : List AskHistory) (tn : List String)
    (srea rq ir : Option String) (fu : Bool) (st : St) :
    writesOf (generateSql e ctx tn srea rq ir fu st).2.events =
      writesOf st.events ++ [generatingWrite e tn srea rq ir fu] := by
  unfold generateSql generateSqlDispatch
  split
  · split
    · simp
    · split
      · split <;> simp
      · split <;> simp
  · split
    · split <;> simp
    · split <;> simp

lemma wLoop (e : Env) (tn : List String) (rq ir : Option String) (fu : Bool) :
    ∀ (fuel a : Nat) (failed : Option InvalidResult) (isql emsg : Option String)
      (st : St),
      ∃ k, writesOf ((correctLoop e tn rq ir fu fuel a failed isql emsg st).2).events =
        writesOf st.events ++ List.replicate k (correctingWrite e tn rq ir fu) := by
  intro fuel
  induction fuel with
  | zero =>
    intro a failed isql emsg st
    exact ⟨0, by simp [correctLoop_zero]⟩
  | succ n ih =>
    intro a failed isql emsg st
    rcases failed with _ | f
    · exact ⟨0, by simp [correctLoop]⟩
    rcases hsql : f.sql with _ | s
    · exact ⟨0, by simp [correctLoop, hsql]⟩
    by_cases hto : f.type = some "TIME_OUT"
    · exact ⟨0, by simp [correctLoop, hsql, hto]⟩
    have hcorrst : writesOf (corrStep e tn rq ir fu st).events =
        writesOf st.events ++ [correctingWrite e tn rq ir fu] := by
      unfold corrStep
      simp
    rcases hcorr : e.o.sql_correction a with ex | p
    · refine ⟨1, ?_⟩
      have : correctLoop e tn rq ir fu (n + 1) a (some f) isql emsg st =
          (.exn (some s) ex.msg, corrStep e tn rq ir fu st) := by
        simp [correctLoop, hsql, hto, hcorr]
      rw [this]
      simpa using hcorrst
    rcases hval : p.valid_generation_result with _ | v
    · obtain ⟨k, hk⟩ := ih (a + 1) p.invalid_generation_result (some s) f.error
        (corrStep e tn rq ir fu st)
      refine ⟨k + 1, ?_⟩
      rw [correctLoop_continue e tn rq ir fu n a f s isql emsg st p hsql hto hcorr hval]
      rw [hk, hcorrst]
      simp [List.replicate_succ]
    · rcases hvs : v.sql with _ | vs
      · refine ⟨1, ?_⟩
        have : correctLoop e tn rq ir fu (n + 1) a (some f) isql emsg st =
            (.exn (some s) "ValidationError", corrStep e tn rq ir fu st) := by
          simp [correctLoop, hsql, hto, hcorr, hval, hvs]
        rw [this]
        simpa using hcorrst
      · refine ⟨1, ?_⟩
        rw [correctLoop_validExit e tn rq ir fu n a f s isql emsg st p v vs hsql hto
          hcorr hval hvs]
        simpa using hcorrst

lemma wCorrSql (e : Env) (f0 : InvalidResult) (tn : List String) (mr : Nat)
    (rq ir : Option String) (fu : Bool) (st : St) :
    ∃ k, writesOf ((correctSql e f0 tn mr rq ir fu st).2).events =
      writesOf st.events ++ List.replicate k (correctingWrite e tn rq ir fu) := by
  unfold correctSql
  obtain ⟨k, hk⟩ := wLoop e tn rq ir fu mr 0 (some f0) none none st
  rcases hloop : correctLoop e tn rq ir fu mr 0 (some f0) none none st with ⟨out, st'⟩
  rw [hloop] at hk
  rcases out with ⟨api, isql, emsg, lastF⟩ | ⟨isql, m⟩
  · rcases api with _ | api
    · rcases lastF with _ | f <;> exact ⟨k, hk⟩
    · exact ⟨k, hk⟩
  · exact ⟨k, hk⟩

lemma rCorrSql (e : Env) (f0 : InvalidResult) (tn : List String) (mr : Nat)
    (rq ir : Option String) (fu : Bool) (st : St) :
    (correctSql e f0 tn mr rq ir fu st).2.record = st.record ∨
    (correctSql e f0 tn mr rq ir fu st).2.record = some (correctingWrite e tn rq ir fu) ∨
    (correctSql e f0 tn mr rq ir fu st).2.record = some stoppedRecord := by
  have hloopRec : ∀ (fuel a : Nat) (failed : Option InvalidResult)
      (isql emsg : Option String) (st : St),
      ((correctLoop e tn rq ir fu fuel a failed isql emsg st).2.record = st.record ∨
       (correctLoop e tn rq ir fu fuel a failed isql emsg st).2.record =
        some (correctingWrite e tn rq ir fu) ∨
       (correctLoop e tn rq ir fu fuel a failed isql emsg st).2.record =
        some stoppedRecord) := by
    intro fuel
    induction fuel with
    | zero => intro a failed isql emsg st; exact Or.inl rfl
    | succ n ih =>
      intro a failed isql emsg st
      have hstep : (corrStep e tn rq ir fu st).record =
          some (correctingWrite e tn rq ir fu) ∨
          (corrStep e tn rq ir fu st).record = some stoppedRecord := by
        unfold corrStep
        simp only [runPipeline_record, updateStatus_record]
        split
        · exact Or.inr rfl
        · exact Or.inl rfl
      rcases failed with _ | f
      · exact Or.inl rfl
      rcases hsql : f.sql with _ | s
      · simp [correctLoop, hsql]
      by_cases hto : f.type = some "TIME_OUT"
      · simp [correctLoop, hsql, hto]
      rcases hcorr : e.o.sql_correction a with ex | p
      · simp only [correctLoop, hsql, if_neg hto, hcorr]
        rcases hstep with h | h
        · exact Or.inr (Or.inl h)
        · exact Or.inr (Or.inr h)
      rcases hval : p.valid_generation_result with _ | v
      · rw [correctLoop_continue e tn rq ir fu n a f s isql emsg st p hsql hto
          hcorr hval]
        rcases ih (a + 1) p.invalid_generation_result (some s) f.error
            (corrStep e tn rq ir fu st) with h | h | h
        · rw [h]
          rcases hstep with h2 | h2
          · exact Or.inr (Or.inl h2)
          · exact Or.inr (Or.inr h2)
        · exact Or.inr (Or.inl h)
        · exact Or.inr (Or.inr h)
      · rcases hvs : v.sql with _ | vs
        · simp only [correctLoop, hsql, if_neg hto, hcorr, hval, hvs]
          rcases hstep with h | h
          · exact Or.inr (Or.inl h)
          · exact Or.inr (Or.inr h)
        · rw [correctLoop_validExit e tn rq ir fu n a f s isql emsg st p v vs
            hsql hto hcorr hval hvs]
          rcases hstep with h | h
          · exact Or.inr (Or.inl h)
          · exact Or.inr (Or.inr h)
  unfold correctSql
  have hl := hloopRec mr 0 (some f0) none none st
  rcases hloop : correctLoop e tn rq ir fu mr 0 (some f0) none none st with ⟨out, st'⟩
  rw [hloop] at hl
  rcases out with ⟨api, isql, emsg, lastF⟩ | ⟨isql, m⟩
  · rcases api with _ | api
    · rcases lastF with _ | f <;> exact hl
    · exact hl
  · exact hl

lemma writeOrder_of_le {x w : AskResultResponse} {k : Nat}
    (hx : isInflight x.status = true ∧ stageRank x.status ≤ k)
    (hk : k ≤ stageRank w.status) : writeOrder x w :=
  ⟨le_trans hx.2 hk, hx.1⟩

lemma inflightLe_replicate (k n : Nat) (c : AskResultResponse)
    (hc : isInflight c.status = true) (hr : stageRank c.status ≤ k) :
    InflightLe k (List.replicate n c) := by
  intro w hw
  rw [List.eq_of_mem_replicate hw]
  exact ⟨hc, hr⟩

lemma inflightLe_singleton (k : Nat) (c : AskResultResponse)
    (hc : isInflight c.status = true) (hr : stageRank c.status ≤ k) :
    InflightLe k [c] := by
  intro w hw
  rw [List.mem_singleton] at hw
  subst hw
  exact ⟨hc, hr⟩

lemma rSchemaStep (e : Env) (hist : List AskHistory) (rq ir : Option String)
    (fu : Bool) (st : St) :
    (schemaStep e hist rq ir fu st).record = some stoppedRecord ∨
    (schemaStep e hist rq ir fu st).record = some (searchingWrite e rq ir fu) := by
  unfold schemaStep
  simp only [runPipeline_record, updateStatus_record]
  split
  · exact Or.inl rfl
  · exact Or.inr rfl

/-- `_format_final_response` keeps the write chain pairwise-ordered and,
whatever branch was taken, leaves the record at a terminal status. -/
lemma c7Ffr (e : Env) (api : Option (List AskResult)) (emsg isql rq ir : Option String)
    (tn : List String) (srea : Option String) (fu : Bool) (st : St)
    (hPW : List.Pairwise writeOrder (writesOf st.events))
    (hIn : InflightLe 4 (writesOf st.events)) :
    List.Pairwise writeOrder
      (writesOf (formatFinalResponse e api emsg isql rq ir tn srea fu st).2.events) ∧
    ∃ rec,
      (formatFinalResponse e api emsg isql rq ir tn srea fu st).2.record = some rec ∧
      isTerminal rec.status = true := by
  unfold formatFinalResponse
  by_cases hstop : isStopped st = true
  · obtain ⟨r, hr, hs⟩ := isStopped_some st hstop
    split <;>
    · exact ⟨hPW, r, hr, by rw [hs]; rfl⟩
  · split <;>
    · refine ⟨?_, _, rfl, rfl⟩
      simp only [updateStatus_events', writesOf_append, writesOf_write]
      exact pairwise_snoc_all hPW (fun x hx =>
        writeOrder_of_le (hIn x hx) (by simp [stageRank]))

/-- Same facts for `_format_cached_response`. -/
lemma c7Fcr (e : Env) (api : List AskResult) (rq ir : Option String)
    (tn : List String) (srea : Option String) (fu : Bool) (st : St)
    (hPW : List.Pairwise writeOrder (writesOf st.events))
    (hIn : InflightLe 4 (writesOf st.events)) :
    List.Pairwise writeOrder
      (writesOf (formatCachedResponse e api rq ir tn srea fu st).2.events) ∧
    ∃ rec,
      (formatCachedResponse e api rq ir tn srea fu st).2.record = some rec ∧
      isTerminal rec.status = true := by
  unfold formatCachedResponse
  split
  next hstop =>
    obtain ⟨r, hr, hs⟩ := isStopped_some st hstop
    exact ⟨hPW, r, hr, by rw [hs]; rfl⟩
  next hstop =>
    refine ⟨?_, _, rfl, rfl⟩
    simp only [updateStatus_events', writesOf_append, writesOf_write]
    exact pairwise_snoc_all hPW (fun x hx =>
      writeOrder_of_le (hIn x hx) (by simp [stageRank]))

/-- `_handle_general_query` under one of the three assistance intents writes
exactly one finished record, keeping the chain ordered. -/
lemma c7Hgq (e : Env) (intent : Option String) (ctx : List AskHistory)
    (rq ir : Option String) (fu : Bool) (st : St)
    (hi : intentInThree intent = true)
    (hPW : List.Pairwise writeOrder (writesOf st.events))
    (hIn : InflightLe 4 (writesOf st.events)) :
    List.Pairwise writeOrder
      (writesOf (handleGeneralQuery e intent ctx rq ir fu st).2.events) ∧
    ∃ rec, (handleGeneralQuery e intent ctx rq ir fu st).2.record = some rec ∧
      isTerminal rec.status = true := by
  have hi' : intent = some "GENERAL" ∨ intent = some "MISLEADING_QUERY" ∨
      intent = some "USER_GUIDE" := by
    unfold intentInThree at hi
    simpa [or_assoc] using hi
  rcases hi' with h | h | h
  · subst h
    rw [hgq_general e ctx rq ir fu st]
    refine ⟨?_, _, rfl, rfl⟩
    simp only [updateStatus_events', recordCall_events', writesOf_append,
      writesOf_write, writesOf_call, List.append_nil, List.nil_append,
      List.append_assoc]
    exact pairwise_snoc_all hPW (fun x hx =>
      writeOrder_of_le (hIn x hx) (by simp [stageRank]))
  · subst h
    rw [hgq_misleading e ctx rq ir fu st]
    refine ⟨?_, _, rfl, rfl⟩
    simp only [updateStatus_events', recordCall_events', writesOf_append,
      writesOf_write, writesOf_call, List.append_nil, List.nil_append,
      List.append_assoc]
    exact pairwise_snoc_all hPW (fun x hx =>
      writeOrder_of_le (hIn x hx) (by simp [stageRank]))
  · subst h
    rw [hgq_user_guide e ctx rq ir fu st]
    refine ⟨?_, _, rfl, rfl⟩
    simp only [updateStatus_events', recordCall_events', writesOf_append,
      writesOf_write, writesOf_call, List.append_nil, List.nil_append,
      List.append_assoc]
    exact pairwise_snoc_all hPW (fun x hx =>
      writeOrder_of_le (hIn x hx) (by simp [stageRank]))

/-- Steps 6-8 of the `try` body keep the write chain pairwise-ordered; an
exception exit leaves only in-flight writes of rank at most 4, and a normal
exit leaves the record at a terminal status. -/
lemma c7Tail (e : Env) (ctx : List AskHistory) (fu : Bool) (tn : List String)
    (rq ir srea : Option String) (st : St)
    (hPW : List.Pairwise writeOrder (writesOf st.events))
    (hIn : InflightLe 2 (writesOf st.events)) :
    List.Pairwise writeOrder
      (writesOf (askTail e ctx fu tn rq ir srea st).2.events) ∧
    (∀ ex, (askTail e ctx fu tn rq ir srea st).1 = .error ex →
      InflightLe 4 (writesOf (askTail e ctx fu tn rq ir srea st).2.events)) ∧
    (∀ r, (askTail e ctx fu tn rq ir srea st).1 = .ok r →
      ∃ rec, (askTail e ctx fu tn rq ir srea st).2.record = some rec ∧
        isTerminal rec.status = true) := by
  unfold askTail
  split
  next hstop =>
    obtain ⟨PW, rec, hrec, hterm⟩ :=
      c7Ffr e (some []) none none rq ir tn srea fu st hPW
        (inflightLe_mono (by omega) hIn)
    rcases hf : formatFinalResponse e (some []) none none rq ir tn srea fu st
      with ⟨r1, st1⟩
    rw [hf] at PW hrec
    simp only []
    exact ⟨PW, fun ex hex => absurd hex (by simp),
      fun r _ => ⟨rec, hrec, hterm⟩⟩
  next hstop =>
    rcases hgs : generateSql e ctx tn srea rq ir fu st with ⟨op, st1⟩
    have hw1 : writesOf st1.events =
        writesOf st.events ++ [generatingWrite e tn srea rq ir fu] := by
      have h := wGs e ctx tn srea rq ir fu st
      rw [hgs] at h
      exact h
    have hPW1 : List.Pairwise writeOrder (writesOf st1.events) := by
      rw [hw1]
      exact pairwise_snoc_all hPW (fun x hx =>
        writeOrder_of_le (hIn x hx) (by simp [stageRank]))
    have hIn1 : InflightLe 3 (writesOf st1.events) := by
      rw [hw1]
      exact inflightLe_append (inflightLe_mono (by omega) hIn)
        (inflightLe_singleton 3 _ (by simp [isInflight]) (by simp [stageRank]))
    rcases op with _ | p
    · simp only []
      exact ⟨hPW1, fun ex _ => inflightLe_mono (by omega) hIn1,
        fun r hr => absurd hr (by simp)⟩
    · rcases p with ⟨vg, ig⟩
      simp only []
      rcases vg with _ | v
      · rcases ig with _ | f
        · simp only []
          obtain ⟨PW, rec, hrec, hterm⟩ :=
            c7Ffr e (some []) none none rq ir tn srea fu st1 hPW1
              (inflightLe_mono (by omega) hIn1)
          rcases hf : formatFinalResponse e (some []) none none rq ir tn srea fu st1
            with ⟨r1, st2⟩
          rw [hf] at PW hrec
          simp only []
          exact ⟨PW, fun ex hex => absurd hex (by simp),
            fun r _ => ⟨rec, hrec, hterm⟩⟩
        · simp only []
          rcases hcs : correctSql e f tn e.cfg.max_sql_correction_retries rq ir fu st1
            with ⟨⟨api2, isql2, emsg2⟩, st2⟩
          obtain ⟨k, hk⟩ :=
            wCorrSql e f tn e.cfg.max_sql_correction_retries rq ir fu st1
          rw [hcs] at hk
          have hPW2 : List.Pairwise writeOrder (writesOf st2.events) := by
            rw [hk]
            refine pairwise_append_all hPW1 ?_ ?_
            · exact pairwise_replicate_writeOrder k _
                ⟨le_refl _, by simp [isInflight]⟩
            · intro x hx y hy
              rw [List.eq_of_mem_replicate hy]
              exact writeOrder_of_le (hIn1 x hx) (by simp [stageRank])
          have hIn2 : InflightLe 4 (writesOf st2.events) := by
            rw [hk]
            exact inflightLe_append (inflightLe_mono (by omega) hIn1)
              (inflightLe_replicate 4 k _ (by simp [isInflight])
                (by simp [stageRank]))
          obtain ⟨PW, rec, hrec, hterm⟩ :=
            c7Ffr e api2 emsg2 isql2 rq ir tn srea fu st2 hPW2 hIn2
          rcases hf : formatFinalResponse e api2 emsg2 isql2 rq ir tn srea fu st2
            with ⟨r1, st3⟩
          rw [hf] at PW hrec
          simp only []
          exact ⟨PW, fun ex hex => absurd hex (by simp),
            fun r _ => ⟨rec, hrec, hterm⟩⟩
      · rcases v with ⟨vsql⟩
        simp only []
        rcases vsql with _ | vs
        · simp only []
          exact ⟨hPW1, fun ex _ => inflightLe_mono (by omega) hIn1,
            fun r hr => absurd hr (by simp)⟩
        · simp only []
          obtain ⟨PW, rec, hrec, hterm⟩ :=
            c7Ffr e (some [{ sql := vs, type := .llm }]) none none rq ir tn srea
              fu st1 hPW1 (inflightLe_mono (by omega) hIn1)
          rcases hf : formatFinalResponse e (some [{ sql := vs, type := .llm }])
              none none rq ir tn srea fu st1 with ⟨r1, st2⟩
          rw [hf] at PW hrec
          simp only []
          exact ⟨PW, fun ex hex => absurd hex (by simp),
            fun r _ => ⟨rec, hrec, hterm⟩⟩

/-- The cache-miss continuation of the `try` body: ordered writes; an
exception exit leaves only in-flight writes; a normal exit leaves the record
terminal except when the schema pipeline raised, which can leave it at
`searching`. -/
lemma c7Miss (e : Env) (ctx : List AskHistory) (fu : Bool) (st : St)
    (hPW : List.Pairwise writeOrder (writesOf st.events))
    (hIn : InflightLe 0 (writesOf st.events)) :
    List.Pairwise writeOrder (writesOf (askMiss e ctx fu st).2.events) ∧
    (∀ ex, (askMiss e ctx fu st).1 = .error ex →
      InflightLe 4 (writesOf (askMiss e ctx fu st).2.events)) ∧
    (∀ r, (askMiss e ctx fu st).1 = .ok r →
      ∃ rec, (askMiss e ctx fu st).2.record = some rec ∧
        (isTerminal rec.status = true ∨
         (rec.status = .searching ∧ ∃ ex, e.o.db_schema_retrieval = .error ex))) := by
  unfold askMiss
  rcases hci : classifyIntent e ctx st with ⟨ip, st1⟩
  simp only []
  have hw1 : writesOf st1.events = writesOf st.events := by
    have h := wCi e ctx st
    rw [hci] at h
    exact h
  have hPW1 : List.Pairwise writeOrder (writesOf st1.events) := by
    rw [hw1]
    exact hPW
  have hIn1 : InflightLe 0 (writesOf st1.events) := by
    rw [hw1]
    exact hIn
  split
  next hint =>
    obtain ⟨PW, rec, hrec, hterm⟩ :=
      c7Hgq e (ip.map fun p => p.intent) ctx (ip.map fun p => p.rephrased_question)
        (ip.map fun p => p.reasoning) fu st1 hint hPW1
        (inflightLe_mono (by omega) hIn1)
    exact ⟨PW, fun ex hex => Except.noConfusion hex,
      fun r _ => ⟨rec, hrec, Or.inl hterm⟩⟩
  next hint =>
    split
    next a st2 heq =>
      rcases hdb : e.o.db_schema_retrieval with ex | ret
      · unfold retrieveDatabaseSchemas at heq
        rw [hdb] at heq
        simp only [] at heq
        injection heq with h1 h2
        have hw2 : writesOf st2.events = writesOf st1.events ++
            [searchingWrite e (ip.map fun p => p.rephrased_question)
              (ip.map fun p => p.reasoning) fu] := by
          rw [← h2]
          exact wSchemaStep e ctx (ip.map fun p => p.rephrased_question)
            (ip.map fun p => p.reasoning) fu st1
        have hrec2 := rSchemaStep e ctx (ip.map fun p => p.rephrased_question)
          (ip.map fun p => p.reasoning) fu st1
        rw [h2] at hrec2
        refine ⟨?_, fun ex2 hex => absurd hex (by simp), fun r _ => ?_⟩
        · rw [hw2]
          exact pairwise_snoc_all hPW1 (fun x hx =>
            writeOrder_of_le (hIn1 x hx) (by simp [stageRank]))
        · rcases hrec2 with h | h
          · exact ⟨stoppedRecord, h, Or.inl rfl⟩
          · exact ⟨_, h, Or.inr ⟨rfl, ex, rfl⟩⟩
      · unfold retrieveDatabaseSchemas at heq
        rw [hdb] at heq
        simp only [] at heq
        split at heq
        next hemp =>
          injection heq with h1 h2
          split at h2
          next hstp =>
            have hw2 : writesOf st2.events = writesOf st1.events ++
                [searchingWrite e (ip.map fun p => p.rephrased_question)
                  (ip.map fun p => p.reasoning) fu] := by
              rw [← h2]
              exact wSchemaStep e ctx (ip.map fun p => p.rephrased_question)
                (ip.map fun p => p.reasoning) fu st1
            rw [h2] at hstp
            obtain ⟨r0, hr0, hs0⟩ := isStopped_some st2 hstp
            refine ⟨?_, fun ex2 hex => absurd hex (by simp),
              fun r _ => ⟨r0, hr0, Or.inl (by rw [hs0]; rfl)⟩⟩
            rw [hw2]
            exact pairwise_snoc_all hPW1 (fun x hx =>
              writeOrder_of_le (hIn1 x hx) (by simp [stageRank]))
          next hstp =>
            have hw2 : writesOf st2.events = writesOf st1.events ++
                [searchingWrite e (ip.map fun p => p.rephrased_question)
                  (ip.map fun p => p.reasoning) fu] ++
                [failedNoDataWrite e (ip.map fun p => p.rephrased_question)
                  (ip.map fun p => p.reasoning) fu] := by
              rw [← h2]
              simp only [updateStatus_events', writesOf_append, writesOf_write,
                wSchemaStep]
            have hrec2 : st2.record = some
                (failedNoDataWrite e (ip.map fun p => p.rephrased_question)
                  (ip.map fun p => p.reasoning) fu) := by
              rw [← h2]
              rfl
            refine ⟨?_, fun ex2 hex => absurd hex (by simp),
              fun r _ => ⟨_, hrec2, Or.inl rfl⟩⟩
            rw [hw2]
            refine pairwise_snoc_all (pairwise_snoc_all hPW1 ?_) ?_
            · intro x hx
              exact writeOrder_of_le (hIn1 x hx) (by simp [stageRank])
            · intro x hx
              rcases List.mem_append.mp hx with hx | hx
              · exact writeOrder_of_le (hIn1 x hx) (by simp [stageRank])
              · rw [List.mem_singleton] at hx
                subst hx
                exact ⟨by simp [stageRank], by simp [isInflight]⟩
        next hemp =>
          injection heq with h1 h2
          exact Except.noConfusion h1
    next tn2 td2 ret2 st2 heq =>
      rcases hdb : e.o.db_schema_retrieval with ex | ret
      · unfold retrieveDatabaseSchemas at heq
        rw [hdb] at heq
        simp only [] at heq
        injection heq with h1 h2
        exact Except.noConfusion h1
      · unfold retrieveDatabaseSchemas at heq
        rw [hdb] at heq
        simp only [] at heq
        split at heq
        next hemp =>
          injection heq with h1 h2
          exact Except.noConfusion h1
        next hemp =>
          injection heq with h1 h2
          have hw2 : writesOf st2.events = writesOf st1.events ++
              [searchingWrite e (ip.map fun p => p.rephrased_question)
                (ip.map fun p => p.reasoning) fu] := by
            rw [← h2]
            exact wSchemaStep e ctx (ip.map fun p => p.rephrased_question)
              (ip.map fun p => p.reasoning) fu st1
          have hPW2 : List.Pairwise writeOrder (writesOf st2.events) := by
            rw [hw2]
            exact pairwise_snoc_all hPW1 (fun x hx =>
              writeOrder_of_le (hIn1 x hx) (by simp [stageRank]))
          have hIn2 : InflightLe 1 (writesOf st2.events) := by
            rw [hw2]
            exact inflightLe_append (inflightLe_mono (by omega) hIn1)
              (inflightLe_singleton 1 _ (by simp [isInflight]) (by simp [stageRank]))
          split
          next hflag =>
            rcases hgr : generateSqlReasoning e ctx tn2
                (ip.map fun p => p.rephrased_question)
                (ip.map fun p => p.reasoning) fu st2 with ⟨srea, st3⟩
            obtain ⟨W, hW, hWp⟩ := wGsr e ctx tn2
              (ip.map fun p => p.rephrased_question)
              (ip.map fun p => p.reasoning) fu st2
            rw [hgr] at hW
            have hPW3 : List.Pairwise writeOrder (writesOf st3.events) := by
              rw [hW]
              refine pairwise_append_all hPW2 ?_ ?_
              · exact List.pairwise_of_forall_mem_list
                  (fun a ha b hb => ⟨by simp [hWp a ha, hWp b hb],
                    by simp [hWp a ha, isInflight]⟩)
              · intro x hx y hy
                exact writeOrder_of_le (hIn2 x hx) (by simp [hWp y hy, stageRank])
            have hIn3 : InflightLe 2 (writesOf st3.events) := by
              rw [hW]
              refine inflightLe_append (inflightLe_mono (by omega) hIn2) ?_
              intro w hw
              exact ⟨by simp [hWp w hw, isInflight], by simp [hWp w hw, stageRank]⟩
            rw [hgr]
            obtain ⟨PW, herr, hok⟩ := c7Tail e ctx fu tn2
              (ip.map fun p => p.rephrased_question)
              (ip.map fun p => p.reasoning) srea st3 hPW3 hIn3
            refine ⟨PW, herr, fun r hr => ?_⟩
            obtain ⟨rec, h1', h2'⟩ := hok r hr
            exact ⟨rec, h1', Or.inl h2'⟩
          next hflag =>
            obtain ⟨PW, herr, hok⟩ := c7Tail e ctx fu tn2
              (ip.map fun p => p.rephrased_question)
              (ip.map fun p => p.reasoning) none st2 hPW2
              (inflightLe_mono (by omega) hIn2)
            refine ⟨PW, herr, fun r hr => ?_⟩
            obtain ⟨rec, h1', h2'⟩ := hok r hr
            exact ⟨rec, h1', Or.inl h2'⟩

/-- `_handle_cache_hit`: ordered writes and a terminal final record. -/
lemma c7Hit (e : Env) (ctx : List AskHistory) (fu : Bool) (api : List AskResult)
    (st : St)
    (hPW : List.Pairwise writeOrder (writesOf st.events))
    (hIn : InflightLe 0 (writesOf st.events)) :
    List.Pairwise writeOrder (writesOf (handleCacheHit e ctx fu api st).2.events) ∧
    ∃ rec, (handleCacheHit e ctx fu api st).2.record = some rec ∧
      isTerminal rec.status = true := by
  unfold handleCacheHit
  split
  next hallow =>
    rcases hci : classifyIntent e ctx st with ⟨ip, st1⟩
    simp only []
    have hw1 : writesOf st1.events = writesOf st.events := by
      have h := wCi e ctx st
      rw [hci] at h
      exact h
    have hPW1 : List.Pairwise writeOrder (writesOf st1.events) := by
      rw [hw1]
      exact hPW
    have hIn1 : InflightLe 4 (writesOf st1.events) := by
      rw [hw1]
      exact inflightLe_mono (by omega) hIn
    split
    next hint =>
      exact c7Hgq e (ip.map fun p => p.intent) ctx
        (ip.map fun p => p.rephrased_question) (ip.map fun p => p.reasoning)
        fu st1 hint hPW1 hIn1
    next hint =>
      obtain ⟨PW, rec, hrec, hterm⟩ := c7Fcr e api
        (ip.map fun p => p.rephrased_question) (ip.map fun p => p.reasoning)
        [] (some "") fu st1 hPW1 hIn1
      exact ⟨PW, rec, hrec, hterm⟩
  next hallow =>
    obtain ⟨PW, rec, hrec, hterm⟩ := c7Fcr e api none none [] (some "") fu st
      hPW (inflightLe_mono (by omega) hIn)
    exact ⟨PW, rec, hrec, hterm⟩

/-- The whole `try` body of `ask`: ordered writes, exception exits leave only
in-flight writes of rank at most 4, and normal exits leave the record
terminal except on a raising schema retrieval. -/
lemma c7Body (e : Env) (ctx : List AskHistory) (fu : Bool) (st : St)
    (hPW : List.Pairwise writeOrder (writesOf st.events))
    (hIn : InflightLe 0 (writesOf st.events)) :
    List.Pairwise writeOrder (writesOf (askBody e ctx fu st).2.events) ∧
    (∀ ex, (askBody e ctx fu st).1 = .error ex →
      InflightLe 4 (writesOf (askBody e ctx fu st).2.events)) ∧
    (∀ r, (askBody e ctx fu st).1 = .ok r →
      ∃ rec, (askBody e ctx fu st).2.record = some rec ∧
        (isTerminal rec.status = true ∨
         (rec.status = .searching ∧ ∃ ex, e.o.db_schema_retrieval = .error ex))) := by
  unfold askBody
  have hst0 : List.Pairwise writeOrder (writesOf
        (if isStopped st then st
         else updateStatus (understandingWrite e fu) st).events) ∧
      InflightLe 0 (writesOf
        (if isStopped st then st
         else updateStatus (understandingWrite e fu) st).events) := by
    split
    · exact ⟨hPW, hIn⟩
    · constructor
      · simp only [updateStatus_events', writesOf_append, writesOf_write]
        exact pairwise_snoc_all hPW (fun x hx =>
          writeOrder_of_le (hIn x hx) (by simp [stageRank]))
      · simp only [updateStatus_events', writesOf_append, writesOf_write]
        exact inflightLe_append hIn (inflightLe_singleton 0 _
          (by simp [isInflight]) (by simp [stageRank]))
  obtain ⟨hPW0, hIn0⟩ := hst0
  rcases hchq : checkHistoricalQuestion e
      (if isStopped st then st else updateStatus (understandingWrite e fu) st)
    with ⟨cc, st1⟩
  have hw1 : writesOf st1.events = writesOf
      (if isStopped st then st
       else updateStatus (understandingWrite e fu) st).events := by
    have h := wChq e
      (if isStopped st then st else updateStatus (understandingWrite e fu) st)
    rw [hchq] at h
    exact h
  have hPW1 : List.Pairwise writeOrder (writesOf st1.events) := by
    rw [hw1]
    exact hPW0
  have hIn1 : InflightLe 0 (writesOf st1.events) := by
    rw [hw1]
    exact hIn0
  cases cc with
  | hit api =>
    simp only []
    obtain ⟨PW, rec, hrec, hterm⟩ := c7Hit e ctx fu api st1 hPW1 hIn1
    exact ⟨PW, fun ex hex => Except.noConfusion hex,
      fun r _ => ⟨rec, hrec, Or.inl hterm⟩⟩
  | miss sp ins =>
    simp only []
    exact c7Miss e ctx fu st1 hPW1 hIn1

end WriteSegLemmas

/-- C6 counterexample: the claim "if any unhandled exception escapes the body
of `AskService.ask`, the method does not propagate the exception [but] writes
a failed/OTHERS record" is false at a concrete input: a request with
`histories: null` (accepted by the pydantic `Optional` field) raises a
TypeError in the context-construction prologue, which sits before the `try`
block — the exception propagates and no record is written at all. -/
theorem C6_counterexample :
    (ask noneHistEnv {}).1 = .error ⟨"TypeError"⟩ ∧
      (ask noneHistEnv {}).2.events = [] := by
  constructor <;> rfl

/-- C6 (amended): any exception that escapes the `try` body of `ask` (steps
1-8, after context construction) is caught by the `except` arm: the method
writes a failed record with error code OTHERS carrying the exception message
and returns normally with a metadata dict whose `error_type` is "OTHERS";
only the unguarded prologue (see the counterexample) can propagate. -/
theorem C6_try_body_exceptions_contained (e : Env) (hs : List AskHistory)
    (st st' : St) (ex : PyErr)
    (hhist : e.req.histories = some hs)
    (hbody : askBody e (ctxHistoriesOf hs e.cfg.max_histories)
        (!(ctxHistoriesOf hs e.cfg.max_histories).isEmpty) st = (.error ex, st')) :
    ask e st =
      (.ok (some { ask_result := none
                   metadata := { type := "TEXT_TO_SQL", error_type := some "OTHERS"
                                 error_message := some ex.msg
                                 request_from := some e.req.request_from } }),
       updateStatus
         { status := .failed, trace_id := e.trace_id
           is_followup := !(ctxHistoriesOf hs e.cfg.max_histories).isEmpty
           type := some .TEXT_TO_SQL, error := some ⟨.OTHERS, ex.msg⟩ } st') := by
  unfold ask
  rw [hhist]
  simp only [hbody]
  rfl

/-- C6 witness: with a raising `sql_generation` pipeline the body raises a
KeyError; `ask` returns the OTHERS metadata and ends with the failed/OTHERS
write. -/
theorem C6_try_body_exceptions_contained_witness :
    (ask kerrEnv {}).1 =
      .ok (some { ask_result := none
                  metadata := { type := "TEXT_TO_SQL", error_type := some "OTHERS"
                                error_message := some "KeyError"
                                request_from := some "api" } }) := by
  have h1 : (askBody kerrEnv (ctxHistoriesOf [] kerrEnv.cfg.max_histories)
      (!(ctxHistoriesOf [] kerrEnv.cfg.max_histories).isEmpty) {}).1 =
      .error ⟨"KeyError"⟩ := rfl
  have hbody : askBody kerrEnv (ctxHistoriesOf [] kerrEnv.cfg.max_histories)
      (!(ctxHistoriesOf [] kerrEnv.cfg.max_histories).isEmpty) {} =
      (.error ⟨"KeyError"⟩,
       (askBody kerrEnv (ctxHistoriesOf [] kerrEnv.cfg.max_histories)
        (!(ctxHistoriesOf [] kerrEnv.cfg.max_histories).isEmpty) {}).2) := by
    rw [← h1]
  have := C6_try_body_exceptions_contained kerrEnv [] {} _ ⟨"KeyError"⟩ rfl hbody
  rw [this]
  rfl

/-- C7: every status ever written into the job record is one of the eight
enum values, and within one run the writes are stage-monotone: every write
that precedes another is in-flight and of a stage no later than it, so the
in-flight stages follow the straight-line order understanding, searching,
planning, generating, correcting with branch points only skipping stages,
and a terminal write (finished, failed, stopped) can only come last.  The
claim's "ending in finished, failed, or stopped" holds on every path except
one: when the `db_schema_retrieval` pipeline raises, the `except` arm of
`_retrieve_database_schemas` (ask.py lines 722-729) re-raises a caught
`ValueError` whose message is swallowed by `ask` without any failed status
write, so the run returns normally with the record left at the in-flight
status `searching` — see the counterexample. -/
theorem C7_status_machine (e : Env) (st : St) (hev : st.events = []) :
    (∀ w ∈ writesOf (ask e st).2.events, w.status ∈ allStatuses) ∧
    List.Pairwise writeOrder (writesOf (ask e st).2.events) ∧
    (∀ r, (ask e st).1 = .ok r →
      ∃ rec, (ask e st).2.record = some rec ∧
        (isTerminal rec.status = true ∨
         (rec.status = .searching ∧ ∃ ex, e.o.db_schema_retrieval = .error ex))) := by
  have hPW : List.Pairwise writeOrder (writesOf st.events) := by
    rw [hev]
    exact List.Pairwise.nil
  have hIn : InflightLe 0 (writesOf st.events) := by
    rw [hev]
    exact inflightLe_nil 0
  refine ⟨fun w _ => status_mem_all w.status, ?_⟩
  unfold ask
  split
  next hnone =>
    exact ⟨hPW, fun r hr => Except.noConfusion hr⟩
  next hs hsome =>
    obtain ⟨PW, herr, hok⟩ := c7Body e (ctxHistoriesOf hs e.cfg.max_histories)
      (!(ctxHistoriesOf hs e.cfg.max_histories).isEmpty) st hPW hIn
    split
    next r1 st1 hbody =>
      rw [hbody] at PW hok
      refine ⟨PW, fun r hr => ?_⟩
      obtain ⟨rec, h1, h2⟩ := hok r1 rfl
      exact ⟨rec, h1, h2⟩
    next ex st1 hbody =>
      rw [hbody] at PW herr
      have hI4 : InflightLe 4 (writesOf st1.events) := herr ex rfl
      constructor
      · simp only [updateStatus_events', writesOf_append, writesOf_write]
        exact pairwise_snoc_all PW (fun x hx =>
          writeOrder_of_le (hI4 x hx) (by simp [stageRank]))
      · intro r hr
        exact ⟨_, rfl, Or.inl rfl⟩

/-- C7 counterexample: with a raising `db_schema_retrieval` pipeline the run
returns normally (no exception, an OK result), yet the job record is left at
the in-flight status `searching` — the run does not end in finished, failed,
or stopped, against the claim's final clause. -/
theorem C7_counterexample :
    (ask dbErrEnv {}).1.toOption.isSome = true ∧
    ((ask dbErrEnv {}).2.record.map fun r => r.status) = some .searching ∧
    ((ask dbErrEnv {}).2.record.map fun r => isTerminal r.status) = some false := by
  exact ⟨rfl, rfl, rfl⟩

/-- C7 witness: the status-machine theorem instantiated on the happy-path
environment and the fresh run state. -/
theorem C7_status_machine_witness :
    (∀ w ∈ writesOf (ask sampleEnv {}).2.events, w.status ∈ allStatuses) ∧
    List.Pairwise writeOrder (writesOf (ask sampleEnv {}).2.events) ∧
    (∀ r, (ask sampleEnv {}).1 = .ok r →
      ∃ rec, (ask sampleEnv {}).2.record = some rec ∧
        (isTerminal rec.status = true ∨
         (rec.status = .searching ∧
          ∃ ex, sampleEnv.o.db_schema_retrieval = .error ex))) :=
  C7_status_machine sampleEnv {} rfl

/-- C1 counterexample: a `stop_ask` landing at the first await point (while
the run suspends on the `historical_question` pipeline) records `stopped`,
yet the flow's later unguarded `_update_status` writes flip the record back
— the replay detects a write over a stopped record, and the run ends with
the record at `finished`, not `stopped`. -/
theorem C1_counterexample :
    flipsStopped none (ask stopEnv {}).2.events = true ∧
    ((ask stopEnv {}).2.record.map fun r => r.status) = some .finished := by
  exact ⟨rfl, rfl⟩

/-- C1 (amended): the stop guard protects exactly the writes that re-check
`_is_stopped`: when the record reads `stopped` at the check,
`_format_final_response` and `_format_cached_response` leave the state
untouched (no finished/failed write), the entry guard of `ask` skips the
understanding write, and — when the stop lands at the schema await — the
empty-retrieval failed write of `_retrieve_database_schemas` is skipped,
leaving the stopped record in place with only the prior searching write in
the log.  The remaining `_update_status` calls re-check nothing, so a stop
landing at other await points is overwritten (see the counterexample). -/
theorem C1_stopped_guarded_writes (e : Env) (st : St)
    (api : Option (List AskResult)) (capi : List AskResult)
    (emsg isql rq ir srea : Option String) (tn : List String) (fu : Bool)
    (h : isStopped st = true) :
    (formatFinalResponse e api emsg isql rq ir tn srea fu st).2 = st ∧
    (formatCachedResponse e capi rq ir tn srea fu st).2 = st ∧
    (if isStopped st then st else updateStatus (understandingWrite e fu) st) = st ∧
    (∀ hist ret, e.o.db_schema_retrieval = .ok ret →
      ret.retrieval_results.isEmpty = true → e.stops st.awaitN = true →
      (retrieveDatabaseSchemas e hist rq ir fu st).2.record = some stoppedRecord ∧
      writesOf (retrieveDatabaseSchemas e hist rq ir fu st).2.events =
        writesOf st.events ++ [searchingWrite e rq ir fu]) := by
  refine ⟨?_, ?_, ?_, ?_⟩
  · unfold formatFinalResponse
    split <;> simp [h]
  · unfold formatCachedResponse
    simp [h]
  · simp [h]
  · intro hist ret hdb hemp hstop
    have hrec : (schemaStep e hist rq ir fu st).record = some stoppedRecord := by
      unfold schemaStep
      simp only [runPipeline_record, updateStatus_record]
      rw [if_pos]
      exact hstop
    have hstp : isStopped (schemaStep e hist rq ir fu st) = true := by
      unfold isStopped
      rw [hrec]
      rfl
    unfold retrieveDatabaseSchemas
    rw [hdb]
    simp only []
    rw [if_pos hemp, if_pos hstp]
    exact ⟨hrec, wSchemaStep e hist rq ir fu st⟩

/-- C1 witness: the guarded-writes theorem instantiated on a state whose
record is the fresh stopped record. -/
theorem C1_stopped_guarded_writes_witness :
    (formatFinalResponse sampleEnv (some []) none none none none [] none false
      { record := some stoppedRecord }).2 = { record := some stoppedRecord } ∧
    (formatCachedResponse sampleEnv [] none none [] none false
      { record := some stoppedRecord }).2 = { record := some stoppedRecord } ∧
    (if isStopped ({ record := some stoppedRecord } : St)
     then ({ record := some stoppedRecord } : St)
     else updateStatus (understandingWrite sampleEnv false)
       { record := some stoppedRecord }) = { record := some stoppedRecord } ∧
    (∀ hist ret, sampleEnv.o.db_schema_retrieval = .ok ret →
      ret.retrieval_results.isEmpty = true →
      sampleEnv.stops ({ record := some stoppedRecord } : St).awaitN = true →
      (retrieveDatabaseSchemas sampleEnv hist none none false
        { record := some stoppedRecord }).2.record = some stoppedRecord ∧
      writesOf (retrieveDatabaseSchemas sampleEnv hist none none false
        { record := some stoppedRecord }).2.events =
        writesOf ({ record := some stoppedRecord } : St).events ++
          [searchingWrite sampleEnv none none false]) :=
  C1_stopped_guarded_writes sampleEnv { record := some stoppedRecord }
    (some []) [] none none none none none [] false rfl

end AskSpec
